import Mathlib

/-!
Shallow embedding of the effect/animation state machine of
`claude_screensaver.py` (class `ClaudeScreensaver` and its `StarState`).

Numeric simulation fields use `ℚ`; the source's decimal float literals
(0.85, 0.15, 0.992, ...) are read as the exact decimal rationals.  The
googly-eye physics involves `math.pi`, so eye angles live in `ℝ` in an
isolated noncomputable corner; no claim touches the eye dynamics.

Environmental values that the source reads during a tick are passed to
`update` explicitly in a `TickInput`: the wall-clock time `now`
(`time.time()`), the heartbeat sample `hb` (the source computes it from
`math.sin` of the wall clock in `_update_heartbeat`), and the two
`random.random()` draws `jx`, `jy` used for corner-trap jitter.
Likewise `manipulate` takes its `current_time = time.time()` as `now`.
-/

/-- Eye state for one googly eye (dataclass `EyeState`): pupil angle in
radians (default `math.pi / 2`) and angular velocity. -/
structure EyeState where
  angle : ℝ
  velocity : ℝ

/-- Default `EyeState()`: angle `math.pi / 2`, velocity `0`. -/
noncomputable def defaultEyeState : EyeState := ⟨Real.pi / 2, 0⟩

/-- The constant `DEFAULT_COLOR = "#c04015"`. -/
def default_color : String := "#c04015"

/-- The field `self.default_rotation_speed = 0.5` set in `__init__`
(never mutated afterwards). -/
def default_rotation_speed : ℚ := 0.5

/-- The constant `STAR_BASE_SIZE = 240`. -/
def star_base_size : ℚ := 240

/-- Dataclass `StarState`: the full simulation state, field for field. -/
structure StarState where
  x : ℚ
  y : ℚ
  vx : ℚ
  vy : ℚ
  current_scale : ℚ
  target_scale : ℚ
  rotation_angle : ℚ
  rotation_speed : ℚ
  color : String
  opacity : ℚ
  heartbeat_pulse : ℚ
  wall_impact : ℚ
  eyes_enabled : Bool
  left_eye : EyeState
  right_eye : EyeState
  effect_active : Option String
  effect_start_time : ℚ
  spin_out_phase : Option String
  spin_out_ramp_start : ℚ
  corner_trapped : Bool
  trap_corner_x : ℚ
  trap_corner_y : ℚ
  saved_vx : ℚ
  saved_vy : ℚ
  shrink_end_time : ℚ
  color_end_time : ℚ
  opacity_end_time : ℚ
  drill_end_time : ℚ
  drill_saved_vx : ℚ
  drill_saved_vy : ℚ

/-- `StarState()` with all dataclass defaults. -/
noncomputable def defaultStarState : StarState :=
  { x := 0, y := 0, vx := 0.5, vy := 0.5
    current_scale := 1, target_scale := 1
    rotation_angle := 0, rotation_speed := 0.5
    color := default_color, opacity := 1
    heartbeat_pulse := 0, wall_impact := 0
    eyes_enabled := false
    left_eye := defaultEyeState, right_eye := defaultEyeState
    effect_active := none, effect_start_time := 0
    spin_out_phase := none, spin_out_ramp_start := 0
    corner_trapped := false, trap_corner_x := 0, trap_corner_y := 0
    saved_vx := 0, saved_vy := 0
    shrink_end_time := 0, color_end_time := 0, opacity_end_time := 0
    drill_end_time := 0, drill_saved_vx := 0, drill_saved_vy := 0 }

/-- The `ClaudeScreensaver` object: display bounds plus the shared
`StarState` (rendering-only fields are omitted). -/
structure Screensaver where
  display_width : ℚ
  display_height : ℚ
  state : StarState

/-- `initialize()` as far as the simulation state is concerned: a fresh
`StarState` with the position set to the display center. -/
noncomputable def initSaver (W H : ℚ) : Screensaver :=
  ⟨W, H, { defaultStarState with x := W / 2, y := H / 2 }⟩

/-- Environmental inputs consumed by one `update()` tick. -/
structure TickInput where
  now : ℚ
  hb : ℚ
  jx : ℚ
  jy : ℚ

/-- The `parameters` dict of `manipulate`: the three keys the source
reads, each possibly absent. -/
structure ManipParams where
  color : Option String := none
  opacity : Option ℚ := none
  enabled : Option Bool := none

/-- Python's `color.startswith("#")` for the single-character prefix
`"#"`: the first character, if any, is `'#'`. -/
def startsWithHash (s : String) : Bool :=
  match s.data with
  | [] => false
  | c :: _ => c == '#'

/-- Method `_cancel_spin_out`: if `spin_out_phase` is truthy (the source
only ever stores `None`, `"ramp"` or `"decay"`), clear it and restore the
default rotation speed. -/
def cancelSpinOut (s : StarState) : StarState :=
  if s.spin_out_phase.isSome then
    { s with spin_out_phase := none, rotation_speed := default_rotation_speed }
  else s

/-- Method `_cancel_drill`: only if `drill_end_time > time.time()` (a
still-running drill), clear the timer, restore the drill-saved velocity
and the default rotation speed.  The source calls `time.time()` again
here; we identify it with the `now` of the enclosing `manipulate`. -/
def cancelDrill (s : StarState) (now : ℚ) : StarState :=
  if now < s.drill_end_time then
    { s with drill_end_time := 0, vx := s.drill_saved_vx, vy := s.drill_saved_vy,
             rotation_speed := default_rotation_speed }
  else s

/-- Squared Euclidean distance.  The source compares
`math.sqrt((x-cx)**2 + (y-cy)**2)` values; `Real.sqrt` is strictly
monotone on squared distances (both nonnegative), so every comparison in
the nearest-corner loop — and hence the selected corner — is unchanged by
dropping the square root. -/
def distSq (px py cx cy : ℚ) : ℚ := (px - cx) ^ 2 + (py - cy) ^ 2

/-- The four 50px-inset corners, in the source's enumeration order:
top-left, top-right, bottom-left, bottom-right. -/
def cornersOf (W H : ℚ) : List (ℚ × ℚ) :=
  [(50, 50), (W - 50, 50), (50, H - 50), (W - 50, H - 50)]

/-- Comparison against the running minimum, initialized to
`float('inf')` (modelled by `none`): everything is below infinity. -/
def ltRunningMin (d : ℚ) : Option ℚ → Bool
  | none => true
  | some m => decide (d < m)

/-- The `for cx, cy in corners` loop of the `corner_trap` branch:
strict `<` against the running minimum, so the first corner attaining the
minimum wins. -/
def nearestLoop (px py : ℚ) : List (ℚ × ℚ) → (ℚ × ℚ) → Option ℚ → (ℚ × ℚ)
  | [], best, _ => best
  | c :: rest, best, bestD =>
      if ltRunningMin (distSq px py c.1 c.2) bestD then
        nearestLoop px py rest c (some (distSq px py c.1 c.2))
      else
        nearestLoop px py rest best bestD

/-- Nearest-corner computation of the `corner_trap` branch:
`min_dist = inf`, `nearest = corners[0]`, then the loop. -/
def nearestCorner (W H px py : ℚ) : ℚ × ℚ :=
  nearestLoop px py (cornersOf W H) (50, 50) none

/-- Method `_reset_state`, field for field.  Note that it does not touch
`x`, `y`, `rotation_angle`, `heartbeat_pulse`, `wall_impact`,
`effect_start_time`, `spin_out_ramp_start`, the trap corner, or the
saved-velocity scratch fields. -/
noncomputable def resetState (s : StarState) : StarState :=
  { s with target_scale := 1, current_scale := 1,
           rotation_speed := default_rotation_speed,
           color := default_color, opacity := 1,
           effect_active := none, corner_trapped := false,
           spin_out_phase := none,
           shrink_end_time := 0, color_end_time := 0,
           opacity_end_time := 0, drill_end_time := 0,
           vx := 0.5, vy := 0.5,
           eyes_enabled := false,
           left_eye := defaultEyeState, right_eye := defaultEyeState }

/-- Method `manipulate(action, parameters)`: the `if/elif` chain over the
action string, executed at wall-clock time `now`.  An action matching no
branch leaves the state untouched. -/
noncomputable def manipulate (sv : Screensaver) (action : String)
    (ps : ManipParams) (now : ℚ) : Screensaver :=
  if action = "shrink" then
    { sv with state := { sv.state with
        target_scale := 0.2, shrink_end_time := now + 15,
        effect_active := some "shrink" } }
  else if action = "spin_out" then
    let s := cancelSpinOut (cancelDrill sv.state now)
    { sv with state := { s with
        rotation_speed := 1, spin_out_phase := some "ramp",
        spin_out_ramp_start := now, effect_active := some "spin_out" } }
  else if action = "drill" then
    let s := cancelSpinOut sv.state
    { sv with state := { s with
        drill_saved_vx := s.vx, drill_saved_vy := s.vy,
        vx := 0, vy := 0, rotation_speed := 10,
        drill_end_time := now + 3, effect_active := some "drill" } }
  else if action = "corner_trap" then
    let c := nearestCorner sv.display_width sv.display_height sv.state.x sv.state.y
    { sv with state := { sv.state with
        saved_vx := sv.state.vx, saved_vy := sv.state.vy,
        vx := 0, vy := 0, corner_trapped := true,
        trap_corner_x := c.1, trap_corner_y := c.2,
        effect_active := some "corner_trap", effect_start_time := now } }
  else if action = "color" then
    let c0 := ps.color.getD default_color
    let c := if startsWithHash c0 then c0 else "#" ++ c0
    { sv with state := { sv.state with color := c, color_end_time := now + 15 } }
  else if action = "opacity" then
    let o := ps.opacity.getD 1
    { sv with state := { sv.state with
        opacity := max 0 (min 1 o), opacity_end_time := now + 15 } }
  else if action = "googly_eyes" then
    { sv with state := { sv.state with eyes_enabled := ps.enabled.getD true } }
  else if action = "reset" then
    { sv with state := resetState sv.state }
  else sv

/-- First block of `_update_effects`: `wall_impact *= 0.85`. -/
def decayImpact (s : StarState) : StarState :=
  { s with wall_impact := s.wall_impact * 0.85 }

/-- Shrink-expiration block of `_update_effects`. -/
def expireShrink (s : StarState) (now : ℚ) : StarState :=
  if 0 < s.shrink_end_time ∧ s.shrink_end_time ≤ now then
    { s with shrink_end_time := 0, target_scale := 1,
             effect_active :=
               if s.effect_active = some "shrink" then none else s.effect_active }
  else s

/-- Color-expiration block of `_update_effects`. -/
def expireColor (s : StarState) (now : ℚ) : StarState :=
  if 0 < s.color_end_time ∧ s.color_end_time ≤ now then
    { s with color_end_time := 0, color := default_color }
  else s

/-- Opacity-expiration block of `_update_effects`. -/
def expireOpacity (s : StarState) (now : ℚ) : StarState :=
  if 0 < s.opacity_end_time ∧ s.opacity_end_time ≤ now then
    { s with opacity_end_time := 0, opacity := 1 }
  else s

/-- Drill-expiration block of `_update_effects`: restore the saved
velocity and the default rotation speed, clear the timer, and clear the
`effect_active` tag if it is `"drill"`. -/
def expireDrill (s : StarState) (now : ℚ) : StarState :=
  if 0 < s.drill_end_time ∧ s.drill_end_time ≤ now then
    { s with vx := s.drill_saved_vx, vy := s.drill_saved_vy,
             rotation_speed := default_rotation_speed,
             drill_end_time := 0,
             effect_active :=
               if s.effect_active = some "drill" then none else s.effect_active }
  else s

/-- Corner-trap-expiration block of `_update_effects` (10-second
duration from `effect_start_time`). -/
def expireTrap (s : StarState) (now : ℚ) : StarState :=
  if s.corner_trapped ∧ 10 ≤ now - s.effect_start_time then
    { s with corner_trapped := false, vx := s.saved_vx, vy := s.saved_vy,
             effect_active :=
               if s.effect_active = some "corner_trap" then none
               else s.effect_active }
  else s

/-- Spin-out block of `_update_effects`: the ramp phase recomputes
`rotation_speed = 1.0 + elapsed * 5.0` while `elapsed < 2`, and switches
to the decay phase afterwards; the decay phase multiplies by `0.992` and,
once the result drops below `0.1`, restores the default speed, clears the
phase, and clears `effect_active` if it is `"spin_out"`. -/
def stepSpin (s : StarState) (now : ℚ) : StarState :=
  if s.spin_out_phase = some "ramp" then
    if now - s.spin_out_ramp_start < 2 then
      { s with rotation_speed := 1 + (now - s.spin_out_ramp_start) * 5 }
    else { s with spin_out_phase := some "decay" }
  else if s.spin_out_phase = some "decay" then
    if s.rotation_speed * 0.992 < 0.1 then
      { s with rotation_speed := default_rotation_speed,
               spin_out_phase := none,
               effect_active :=
                 if s.effect_active = some "spin_out" then none
                 else s.effect_active }
    else { s with rotation_speed := s.rotation_speed * 0.992 }
  else s

/-- Method `_update_effects`, as the composition of its blocks in source
order. -/
def updateEffects (s : StarState) (now : ℚ) : StarState :=
  stepSpin
    (expireTrap
      (expireDrill
        (expireOpacity
          (expireColor
            (expireShrink (decayImpact s) now) now) now) now) now) now

/-- Method `_update_bouncing_position`, returning the updated state
together with the `hit_wall` flag. -/
def bounceStep (W H : ℚ) (s : StarState) : StarState × Bool :=
  let nx := s.x + s.vx
  let ny := s.y + s.vy
  let radius := star_base_size * s.current_scale / 2
  let padding : ℚ := 4
  let xres : ℚ × ℚ × Bool :=
    if nx - radius < padding then (|s.vx|, radius + padding, true)
    else if W - padding < nx + radius then (-|s.vx|, W - padding - radius, true)
    else (s.vx, nx, false)
  let yres : ℚ × ℚ × Bool :=
    if ny - radius < padding then (|s.vy|, radius + padding, true)
    else if H - padding < ny + radius then (-|s.vy|, H - padding - radius, true)
    else (s.vy, ny, false)
  let hit := xres.2.2 || yres.2.2
  ({ s with vx := xres.1, vy := yres.1, x := xres.2.1, y := yres.2.1,
            wall_impact := if hit then 0.02 else s.wall_impact }, hit)

section EyePhysics
open Classical

/-- The pair of `while` loops the source uses to normalize an angle
difference into `[-π, π]`: repeatedly subtract `2π` while the value
exceeds `π`, then repeatedly add `2π` while it is below `-π`.  The loops
terminate on every real input and compute exactly this closed form (for
`d > π` the first loop runs `⌈(d-π)/(2π)⌉` times and lands in `(-π, π]`;
for `d < -π` the second runs `⌈(-π-d)/(2π)⌉` times and lands in
`[-π, π)`; otherwise neither runs). -/
noncomputable def normAngle (d : ℝ) : ℝ :=
  if Real.pi < d then d - 2 * Real.pi * (⌈(d - Real.pi) / (2 * Real.pi)⌉ : ℤ)
  else if d < -Real.pi then d + 2 * Real.pi * (⌈(-Real.pi - d) / (2 * Real.pi)⌉ : ℤ)
  else d

/-- Method `_update_eye_physics`: damped angular springs for both eyes
(gravity toward world "down", centrifugal pull when spinning fast,
shared heartbeat and wall-impact kicks, friction, then integration). -/
noncomputable def updateEyes (s : StarState) : StarState :=
  if s.eyes_enabled then
    let rot : ℝ := (s.rotation_angle : ℝ) * Real.pi / 180
    let gravityTarget : ℝ := Real.pi / 2 - rot
    let centrifugal : ℝ :=
      if 2 < |s.rotation_speed| then ((|s.rotation_speed| : ℚ) : ℝ) * 0.05 else 0
    let hbKick : ℝ := (s.heartbeat_pulse : ℝ) * 0.0069
    let impactKick : ℝ := (s.wall_impact : ℝ)
    let lg := normAngle (gravityTarget - s.left_eye.angle)
    let lc := normAngle (Real.pi - s.left_eye.angle)
    let lv := ((s.left_eye.velocity + lg * 0.008 + lc * centrifugal)
                - hbKick - impactKick) * 0.96
    let rg := normAngle (gravityTarget - s.right_eye.angle)
    let rc := normAngle (0 - s.right_eye.angle)
    let rv := ((s.right_eye.velocity + rg * 0.008 + rc * centrifugal)
                - hbKick - impactKick) * 0.96
    { s with left_eye := ⟨s.left_eye.angle + lv, lv⟩,
             right_eye := ⟨s.right_eye.angle + rv, rv⟩ }
  else s

end EyePhysics

/-- The state right after `_update_heartbeat` and `_update_effects` in a
tick: the sampled heartbeat value written into the state, then
`_update_effects` at the tick's wall-clock time. -/
def effectsState (sv : Screensaver) (i : TickInput) : StarState :=
  updateEffects { sv.state with heartbeat_pulse := i.hb } i.now

/-- The part of `update()` before the position regimes: `effectsState`,
then the idle target scale from the heartbeat when no shrink is pending,
exponential scale easing (factor 0.15), and rotation accumulation.  The
conditional target-scale write is expressed at field level: the source's
`if shrink_end_time == 0` block assigns only `target_scale`, and the
subsequent easing and rotation statements read fields the block does not
write. -/
def preMoveState (sv : Screensaver) (i : TickInput) : StarState :=
  let s1 := effectsState sv i
  let ts := if s1.shrink_end_time = 0 then 1 + s1.heartbeat_pulse * 0.08
            else s1.target_scale
  { s1 with target_scale := ts,
            current_scale := s1.current_scale + (ts - s1.current_scale) * 0.15,
            rotation_angle := s1.rotation_angle + s1.rotation_speed }

/-- Method `update()`: one full tick.  After `preMoveState`, the position
regime: corner-trap jitter (`±20` px around the trap corner, from the two
`random.random()` draws), else frozen while a drill timer is set, else
DVD bouncing; finally the eye physics. -/
noncomputable def update (sv : Screensaver) (i : TickInput) : Screensaver :=
  let s4 := preMoveState sv i
  let s5 :=
    if s4.corner_trapped then
      { s4 with x := s4.trap_corner_x + (i.jx - 0.5) * 40,
                y := s4.trap_corner_y + (i.jy - 0.5) * 40 }
    else if s4.drill_end_time = 0 then
      (bounceStep sv.display_width sv.display_height s4).1
    else s4
  { sv with state := updateEyes s5 }

/-- A sequence of `update()` ticks with no intervening commands. -/
noncomputable def runTicks (sv : Screensaver) : List TickInput → Screensaver
  | [] => sv
  | i :: L => runTicks (update sv i) L

/-- The dictionary returned by `get_status`. -/
structure StarStatus where
  x : ℚ
  y : ℚ
  vx : ℚ
  vy : ℚ
  scale : ℚ
  rotation : ℚ
  rotation_speed : ℚ
  color : String
  opacity : ℚ
  effect_active : Option String
  corner_trapped : Bool
  eyes_enabled : Bool
  heartbeat_pulse : ℚ
  wall_impact : ℚ
  width : ℚ
  height : ℚ
deriving DecidableEq

/-- Method `get_status`: a point-in-time copy of the reported fields. -/
def getStatus (sv : Screensaver) : StarStatus :=
  { x := sv.state.x, y := sv.state.y,
    vx := sv.state.vx, vy := sv.state.vy,
    scale := sv.state.current_scale,
    rotation := sv.state.rotation_angle,
    rotation_speed := sv.state.rotation_speed,
    color := sv.state.color, opacity := sv.state.opacity,
    effect_active := sv.state.effect_active,
    corner_trapped := sv.state.corner_trapped,
    eyes_enabled := sv.state.eyes_enabled,
    heartbeat_pulse := sv.state.heartbeat_pulse,
    wall_impact := sv.state.wall_impact,
    width := sv.display_width, height := sv.display_height }

/-- The `valid_actions` list of the `/api/manipulate_star` handler. -/
def validActions : List String :=
  ["shrink", "spin_out", "drill", "corner_trap", "color", "opacity",
   "googly_eyes", "reset"]

/-- The HTTP entry point `manipulate_star`: a missing or falsy (empty)
action is a request error, an action outside `valid_actions` is a request
error, and only a valid action reaches `manipulate`. -/
noncomputable def manipulateStar (sv : Screensaver) (action : Option String)
    (ps : ManipParams) (now : ℚ) : Except String Screensaver :=
  match action with
  | none => Except.error "Missing action parameter"
  | some a =>
      if a = "" then Except.error "Missing action parameter"
      else if a ∈ validActions then Except.ok (manipulate sv a ps now)
      else Except.error "Invalid action"

/-- Reachable configurations of the running program: a configuration is a
screensaver value together with the wall-clock time of the last event.
Events are external commands (`manipulate`) and frame ticks (`update`),
at nondecreasing nonnegative wall-clock times. -/
inductive Reach : Screensaver → ℚ → Prop where
  | init (W H t : ℚ) (ht : 0 ≤ t) : Reach (initSaver W H) t
  | manip {sv : Screensaver} {t : ℚ} (a : String) (ps : ManipParams) {t' : ℚ}
      (h : Reach sv t) (hle : t ≤ t') : Reach (manipulate sv a ps t') t'
  | tick {sv : Screensaver} {t : ℚ} (i : TickInput)
      (h : Reach sv t) (hle : t ≤ i.now) : Reach (update sv i) i.now
/-! Projection lemmas: for each block of the source, the fields it leaves
untouched.  Conditionally-written fields get explicit characterizations
further below. -/

@[simp] theorem decayImpact_x (s : StarState) : (decayImpact s).x = s.x := rfl
@[simp] theorem decayImpact_y (s : StarState) : (decayImpact s).y = s.y := rfl
@[simp] theorem decayImpact_vx (s : StarState) : (decayImpact s).vx = s.vx := rfl
@[simp] theorem decayImpact_vy (s : StarState) : (decayImpact s).vy = s.vy := rfl
@[simp] theorem decayImpact_current_scale (s : StarState) : (decayImpact s).current_scale = s.current_scale := rfl
@[simp] theorem decayImpact_target_scale (s : StarState) : (decayImpact s).target_scale = s.target_scale := rfl
@[simp] theorem decayImpact_rotation_angle (s : StarState) : (decayImpact s).rotation_angle = s.rotation_angle := rfl
@[simp] theorem decayImpact_rotation_speed (s : StarState) : (decayImpact s).rotation_speed = s.rotation_speed := rfl
@[simp] theorem decayImpact_heartbeat_pulse (s : StarState) : (decayImpact s).heartbeat_pulse = s.heartbeat_pulse := rfl
@[simp] theorem decayImpact_effect_active (s : StarState) : (decayImpact s).effect_active = s.effect_active := rfl
@[simp] theorem decayImpact_effect_start_time (s : StarState) : (decayImpact s).effect_start_time = s.effect_start_time := rfl
@[simp] theorem decayImpact_spin_out_phase (s : StarState) : (decayImpact s).spin_out_phase = s.spin_out_phase := rfl
@[simp] theorem decayImpact_spin_out_ramp_start (s : StarState) : (decayImpact s).spin_out_ramp_start = s.spin_out_ramp_start := rfl
@[simp] theorem decayImpact_corner_trapped (s : StarState) : (decayImpact s).corner_trapped = s.corner_trapped := rfl
@[simp] theorem decayImpact_trap_corner_x (s : StarState) : (decayImpact s).trap_corner_x = s.trap_corner_x := rfl
@[simp] theorem decayImpact_trap_corner_y (s : StarState) : (decayImpact s).trap_corner_y = s.trap_corner_y := rfl
@[simp] theorem decayImpact_saved_vx (s : StarState) : (decayImpact s).saved_vx = s.saved_vx := rfl
@[simp] theorem decayImpact_saved_vy (s : StarState) : (decayImpact s).saved_vy = s.saved_vy := rfl
@[simp] theorem decayImpact_shrink_end_time (s : StarState) : (decayImpact s).shrink_end_time = s.shrink_end_time := rfl
@[simp] theorem decayImpact_drill_end_time (s : StarState) : (decayImpact s).drill_end_time = s.drill_end_time := rfl
@[simp] theorem decayImpact_drill_saved_vx (s : StarState) : (decayImpact s).drill_saved_vx = s.drill_saved_vx := rfl
@[simp] theorem decayImpact_drill_saved_vy (s : StarState) : (decayImpact s).drill_saved_vy = s.drill_saved_vy := rfl

@[simp] theorem expireShrink_x (s : StarState) (now : ℚ) : (expireShrink s now).x = s.x := by unfold expireShrink; split <;> rfl
@[simp] theorem expireShrink_y (s : StarState) (now : ℚ) : (expireShrink s now).y = s.y := by unfold expireShrink; split <;> rfl
@[simp] theorem expireShrink_vx (s : StarState) (now : ℚ) : (expireShrink s now).vx = s.vx := by unfold expireShrink; split <;> rfl
@[simp] theorem expireShrink_vy (s : StarState) (now : ℚ) : (expireShrink s now).vy = s.vy := by unfold expireShrink; split <;> rfl
@[simp] theorem expireShrink_current_scale (s : StarState) (now : ℚ) : (expireShrink s now).current_scale = s.current_scale := by unfold expireShrink; split <;> rfl
@[simp] theorem expireShrink_rotation_angle (s : StarState) (now : ℚ) : (expireShrink s now).rotation_angle = s.rotation_angle := by unfold expireShrink; split <;> rfl
@[simp] theorem expireShrink_rotation_speed (s : StarState) (now : ℚ) : (expireShrink s now).rotation_speed = s.rotation_speed := by unfold expireShrink; split <;> rfl
@[simp] theorem expireShrink_heartbeat_pulse (s : StarState) (now : ℚ) : (expireShrink s now).heartbeat_pulse = s.heartbeat_pulse := by unfold expireShrink; split <;> rfl
@[simp] theorem expireShrink_wall_impact (s : StarState) (now : ℚ) : (expireShrink s now).wall_impact = s.wall_impact := by unfold expireShrink; split <;> rfl
@[simp] theorem expireShrink_effect_start_time (s : StarState) (now : ℚ) : (expireShrink s now).effect_start_time = s.effect_start_time := by unfold expireShrink; split <;> rfl
@[simp] theorem expireShrink_spin_out_phase (s : StarState) (now : ℚ) : (expireShrink s now).spin_out_phase = s.spin_out_phase := by unfold expireShrink; split <;> rfl
@[simp] theorem expireShrink_spin_out_ramp_start (s : StarState) (now : ℚ) : (expireShrink s now).spin_out_ramp_start = s.spin_out_ramp_start := by unfold expireShrink; split <;> rfl
@[simp] theorem expireShrink_corner_trapped (s : StarState) (now : ℚ) : (expireShrink s now).corner_trapped = s.corner_trapped := by unfold expireShrink; split <;> rfl
@[simp] theorem expireShrink_trap_corner_x (s : StarState) (now : ℚ) : (expireShrink s now).trap_corner_x = s.trap_corner_x := by unfold expireShrink; split <;> rfl
@[simp] theorem expireShrink_trap_corner_y (s : StarState) (now : ℚ) : (expireShrink s now).trap_corner_y = s.trap_corner_y := by unfold expireShrink; split <;> rfl
@[simp] theorem expireShrink_saved_vx (s : StarState) (now : ℚ) : (expireShrink s now).saved_vx = s.saved_vx := by unfold expireShrink; split <;> rfl
@[simp] theorem expireShrink_saved_vy (s : StarState) (now : ℚ) : (expireShrink s now).saved_vy = s.saved_vy := by unfold expireShrink; split <;> rfl
@[simp] theorem expireShrink_drill_end_time (s : StarState) (now : ℚ) : (expireShrink s now).drill_end_time = s.drill_end_time := by unfold expireShrink; split <;> rfl
@[simp] theorem expireShrink_drill_saved_vx (s : StarState) (now : ℚ) : (expireShrink s now).drill_saved_vx = s.drill_saved_vx := by unfold expireShrink; split <;> rfl
@[simp] theorem expireShrink_drill_saved_vy (s : StarState) (now : ℚ) : (expireShrink s now).drill_saved_vy = s.drill_saved_vy := by unfold expireShrink; split <;> rfl

@[simp] theorem expireColor_x (s : StarState) (now : ℚ) : (expireColor s now).x = s.x := by unfold expireColor; split <;> rfl
@[simp] theorem expireColor_y (s : StarState) (now : ℚ) : (expireColor s now).y = s.y := by unfold expireColor; split <;> rfl
@[simp] theorem expireColor_vx (s : StarState) (now : ℚ) : (expireColor s now).vx = s.vx := by unfold expireColor; split <;> rfl
@[simp] theorem expireColor_vy (s : StarState) (now : ℚ) : (expireColor s now).vy = s.vy := by unfold expireColor; split <;> rfl
@[simp] theorem expireColor_current_scale (s : StarState) (now : ℚ) : (expireColor s now).current_scale = s.current_scale := by unfold expireColor; split <;> rfl
@[simp] theorem expireColor_target_scale (s : StarState) (now : ℚ) : (expireColor s now).target_scale = s.target_scale := by unfold expireColor; split <;> rfl
@[simp] theorem expireColor_rotation_angle (s : StarState) (now : ℚ) : (expireColor s now).rotation_angle = s.rotation_angle := by unfold expireColor; split <;> rfl
@[simp] theorem expireColor_rotation_speed (s : StarState) (now : ℚ) : (expireColor s now).rotation_speed = s.rotation_speed := by unfold expireColor; split <;> rfl
@[simp] theorem expireColor_heartbeat_pulse (s : StarState) (now : ℚ) : (expireColor s now).heartbeat_pulse = s.heartbeat_pulse := by unfold expireColor; split <;> rfl
@[simp] theorem expireColor_wall_impact (s : StarState) (now : ℚ) : (expireColor s now).wall_impact = s.wall_impact := by unfold expireColor; split <;> rfl
@[simp] theorem expireColor_effect_active (s : StarState) (now : ℚ) : (expireColor s now).effect_active = s.effect_active := by unfold expireColor; split <;> rfl
@[simp] theorem expireColor_effect_start_time (s : StarState) (now : ℚ) : (expireColor s now).effect_start_time = s.effect_start_time := by unfold expireColor; split <;> rfl
@[simp] theorem expireColor_spin_out_phase (s : StarState) (now : ℚ) : (expireColor s now).spin_out_phase = s.spin_out_phase := by unfold expireColor; split <;> rfl
@[simp] theorem expireColor_spin_out_ramp_start (s : StarState) (now : ℚ) : (expireColor s now).spin_out_ramp_start = s.spin_out_ramp_start := by unfold expireColor; split <;> rfl
@[simp] theorem expireColor_corner_trapped (s : StarState) (now : ℚ) : (expireColor s now).corner_trapped = s.corner_trapped := by unfold expireColor; split <;> rfl
@[simp] theorem expireColor_trap_corner_x (s : StarState) (now : ℚ) : (expireColor s now).trap_corner_x = s.trap_corner_x := by unfold expireColor; split <;> rfl
@[simp] theorem expireColor_trap_corner_y (s : StarState) (now : ℚ) : (expireColor s now).trap_corner_y = s.trap_corner_y := by unfold expireColor; split <;> rfl
@[simp] theorem expireColor_saved_vx (s : StarState) (now : ℚ) : (expireColor s now).saved_vx = s.saved_vx := by unfold expireColor; split <;> rfl
@[simp] theorem expireColor_saved_vy (s : StarState) (now : ℚ) : (expireColor s now).saved_vy = s.saved_vy := by unfold expireColor; split <;> rfl
@[simp] theorem expireColor_shrink_end_time (s : StarState) (now : ℚ) : (expireColor s now).shrink_end_time = s.shrink_end_time := by unfold expireColor; split <;> rfl
@[simp] theorem expireColor_drill_end_time (s : StarState) (now : ℚ) : (expireColor s now).drill_end_time = s.drill_end_time := by unfold expireColor; split <;> rfl
@[simp] theorem expireColor_drill_saved_vx (s : StarState) (now : ℚ) : (expireColor s now).drill_saved_vx = s.drill_saved_vx := by unfold expireColor; split <;> rfl
@[simp] theorem expireColor_drill_saved_vy (s : StarState) (now : ℚ) : (expireColor s now).drill_saved_vy = s.drill_saved_vy := by unfold expireColor; split <;> rfl

@[simp] theorem expireOpacity_x (s : StarState) (now : ℚ) : (expireOpacity s now).x = s.x := by unfold expireOpacity; split <;> rfl
@[simp] theorem expireOpacity_y (s : StarState) (now : ℚ) : (expireOpacity s now).y = s.y := by unfold expireOpacity; split <;> rfl
@[simp] theorem expireOpacity_vx (s : StarState) (now : ℚ) : (expireOpacity s now).vx = s.vx := by unfold expireOpacity; split <;> rfl
@[simp] theorem expireOpacity_vy (s : StarState) (now : ℚ) : (expireOpacity s now).vy = s.vy := by unfold expireOpacity; split <;> rfl
@[simp] theorem expireOpacity_current_scale (s : StarState) (now : ℚ) : (expireOpacity s now).current_scale = s.current_scale := by unfold expireOpacity; split <;> rfl
@[simp] theorem expireOpacity_target_scale (s : StarState) (now : ℚ) : (expireOpacity s now).target_scale = s.target_scale := by unfold expireOpacity; split <;> rfl
@[simp] theorem expireOpacity_rotation_angle (s : StarState) (now : ℚ) : (expireOpacity s now).rotation_angle = s.rotation_angle := by unfold expireOpacity; split <;> rfl
@[simp] theorem expireOpacity_rotation_speed (s : StarState) (now : ℚ) : (expireOpacity s now).rotation_speed = s.rotation_speed := by unfold expireOpacity; split <;> rfl
@[simp] theorem expireOpacity_heartbeat_pulse (s : StarState) (now : ℚ) : (expireOpacity s now).heartbeat_pulse = s.heartbeat_pulse := by unfold expireOpacity; split <;> rfl
@[simp] theorem expireOpacity_wall_impact (s : StarState) (now : ℚ) : (expireOpacity s now).wall_impact = s.wall_impact := by unfold expireOpacity; split <;> rfl
@[simp] theorem expireOpacity_effect_active (s : StarState) (now : ℚ) : (expireOpacity s now).effect_active = s.effect_active := by unfold expireOpacity; split <;> rfl
@[simp] theorem expireOpacity_effect_start_time (s : StarState) (now : ℚ) : (expireOpacity s now).effect_start_time = s.effect_start_time := by unfold expireOpacity; split <;> rfl
@[simp] theorem expireOpacity_spin_out_phase (s : StarState) (now : ℚ) : (expireOpacity s now).spin_out_phase = s.spin_out_phase := by unfold expireOpacity; split <;> rfl
@[simp] theorem expireOpacity_spin_out_ramp_start (s : StarState) (now : ℚ) : (expireOpacity s now).spin_out_ramp_start = s.spin_out_ramp_start := by unfold expireOpacity; split <;> rfl
@[simp] theorem expireOpacity_corner_trapped (s : StarState) (now : ℚ) : (expireOpacity s now).corner_trapped = s.corner_trapped := by unfold expireOpacity; split <;> rfl
@[simp] theorem expireOpacity_trap_corner_x (s : StarState) (now : ℚ) : (expireOpacity s now).trap_corner_x = s.trap_corner_x := by unfold expireOpacity; split <;> rfl
@[simp] theorem expireOpacity_trap_corner_y (s : StarState) (now : ℚ) : (expireOpacity s now).trap_corner_y = s.trap_corner_y := by unfold expireOpacity; split <;> rfl
@[simp] theorem expireOpacity_saved_vx (s : StarState) (now : ℚ) : (expireOpacity s now).saved_vx = s.saved_vx := by unfold expireOpacity; split <;> rfl
@[simp] theorem expireOpacity_saved_vy (s : StarState) (now : ℚ) : (expireOpacity s now).saved_vy = s.saved_vy := by unfold expireOpacity; split <;> rfl
@[simp] theorem expireOpacity_shrink_end_time (s : StarState) (now : ℚ) : (expireOpacity s now).shrink_end_time = s.shrink_end_time := by unfold expireOpacity; split <;> rfl
@[simp] theorem expireOpacity_drill_end_time (s : StarState) (now : ℚ) : (expireOpacity s now).drill_end_time = s.drill_end_time := by unfold expireOpacity; split <;> rfl
@[simp] theorem expireOpacity_drill_saved_vx (s : StarState) (now : ℚ) : (expireOpacity s now).drill_saved_vx = s.drill_saved_vx := by unfold expireOpacity; split <;> rfl
@[simp] theorem expireOpacity_drill_saved_vy (s : StarState) (now : ℚ) : (expireOpacity s now).drill_saved_vy = s.drill_saved_vy := by unfold expireOpacity; split <;> rfl

@[simp] theorem expireDrill_x (s : StarState) (now : ℚ) : (expireDrill s now).x = s.x := by unfold expireDrill; split <;> rfl
@[simp] theorem expireDrill_y (s : StarState) (now : ℚ) : (expireDrill s now).y = s.y := by unfold expireDrill; split <;> rfl
@[simp] theorem expireDrill_current_scale (s : StarState) (now : ℚ) : (expireDrill s now).current_scale = s.current_scale := by unfold expireDrill; split <;> rfl
@[simp] theorem expireDrill_target_scale (s : StarState) (now : ℚ) : (expireDrill s now).target_scale = s.target_scale := by unfold expireDrill; split <;> rfl
@[simp] theorem expireDrill_rotation_angle (s : StarState) (now : ℚ) : (expireDrill s now).rotation_angle = s.rotation_angle := by unfold expireDrill; split <;> rfl
@[simp] theorem expireDrill_heartbeat_pulse (s : StarState) (now : ℚ) : (expireDrill s now).heartbeat_pulse = s.heartbeat_pulse := by unfold expireDrill; split <;> rfl
@[simp] theorem expireDrill_wall_impact (s : StarState) (now : ℚ) : (expireDrill s now).wall_impact = s.wall_impact := by unfold expireDrill; split <;> rfl
@[simp] theorem expireDrill_effect_start_time (s : StarState) (now : ℚ) : (expireDrill s now).effect_start_time = s.effect_start_time := by unfold expireDrill; split <;> rfl
@[simp] theorem expireDrill_spin_out_phase (s : StarState) (now : ℚ) : (expireDrill s now).spin_out_phase = s.spin_out_phase := by unfold expireDrill; split <;> rfl
@[simp] theorem expireDrill_spin_out_ramp_start (s : StarState) (now : ℚ) : (expireDrill s now).spin_out_ramp_start = s.spin_out_ramp_start := by unfold expireDrill; split <;> rfl
@[simp] theorem expireDrill_corner_trapped (s : StarState) (now : ℚ) : (expireDrill s now).corner_trapped = s.corner_trapped := by unfold expireDrill; split <;> rfl
@[simp] theorem expireDrill_trap_corner_x (s : StarState) (now : ℚ) : (expireDrill s now).trap_corner_x = s.trap_corner_x := by unfold expireDrill; split <;> rfl
@[simp] theorem expireDrill_trap_corner_y (s : StarState) (now : ℚ) : (expireDrill s now).trap_corner_y = s.trap_corner_y := by unfold expireDrill; split <;> rfl
@[simp] theorem expireDrill_saved_vx (s : StarState) (now : ℚ) : (expireDrill s now).saved_vx = s.saved_vx := by unfold expireDrill; split <;> rfl
@[simp] theorem expireDrill_saved_vy (s : StarState) (now : ℚ) : (expireDrill s now).saved_vy = s.saved_vy := by unfold expireDrill; split <;> rfl
@[simp] theorem expireDrill_shrink_end_time (s : StarState) (now : ℚ) : (expireDrill s now).shrink_end_time = s.shrink_end_time := by unfold expireDrill; split <;> rfl
@[simp] theorem expireDrill_drill_saved_vx (s : StarState) (now : ℚ) : (expireDrill s now).drill_saved_vx = s.drill_saved_vx := by unfold expireDrill; split <;> rfl
@[simp] theorem expireDrill_drill_saved_vy (s : StarState) (now : ℚ) : (expireDrill s now).drill_saved_vy = s.drill_saved_vy := by unfold expireDrill; split <;> rfl

@[simp] theorem expireTrap_x (s : StarState) (now : ℚ) : (expireTrap s now).x = s.x := by unfold expireTrap; split <;> rfl
@[simp] theorem expireTrap_y (s : StarState) (now : ℚ) : (expireTrap s now).y = s.y := by unfold expireTrap; split <;> rfl
@[simp] theorem expireTrap_current_scale (s : StarState) (now : ℚ) : (expireTrap s now).current_scale = s.current_scale := by unfold expireTrap; split <;> rfl
@[simp] theorem expireTrap_target_scale (s : StarState) (now : ℚ) : (expireTrap s now).target_scale = s.target_scale := by unfold expireTrap; split <;> rfl
@[simp] theorem expireTrap_rotation_angle (s : StarState) (now : ℚ) : (expireTrap s now).rotation_angle = s.rotation_angle := by unfold expireTrap; split <;> rfl
@[simp] theorem expireTrap_rotation_speed (s : StarState) (now : ℚ) : (expireTrap s now).rotation_speed = s.rotation_speed := by unfold expireTrap; split <;> rfl
@[simp] theorem expireTrap_heartbeat_pulse (s : StarState) (now : ℚ) : (expireTrap s now).heartbeat_pulse = s.heartbeat_pulse := by unfold expireTrap; split <;> rfl
@[simp] theorem expireTrap_wall_impact (s : StarState) (now : ℚ) : (expireTrap s now).wall_impact = s.wall_impact := by unfold expireTrap; split <;> rfl
@[simp] theorem expireTrap_effect_start_time (s : StarState) (now : ℚ) : (expireTrap s now).effect_start_time = s.effect_start_time := by unfold expireTrap; split <;> rfl
@[simp] theorem expireTrap_spin_out_phase (s : StarState) (now : ℚ) : (expireTrap s now).spin_out_phase = s.spin_out_phase := by unfold expireTrap; split <;> rfl
@[simp] theorem expireTrap_spin_out_ramp_start (s : StarState) (now : ℚ) : (expireTrap s now).spin_out_ramp_start = s.spin_out_ramp_start := by unfold expireTrap; split <;> rfl
@[simp] theorem expireTrap_trap_corner_x (s : StarState) (now : ℚ) : (expireTrap s now).trap_corner_x = s.trap_corner_x := by unfold expireTrap; split <;> rfl
@[simp] theorem expireTrap_trap_corner_y (s : StarState) (now : ℚ) : (expireTrap s now).trap_corner_y = s.trap_corner_y := by unfold expireTrap; split <;> rfl
@[simp] theorem expireTrap_saved_vx (s : StarState) (now : ℚ) : (expireTrap s now).saved_vx = s.saved_vx := by unfold expireTrap; split <;> rfl
@[simp] theorem expireTrap_saved_vy (s : StarState) (now : ℚ) : (expireTrap s now).saved_vy = s.saved_vy := by unfold expireTrap; split <;> rfl
@[simp] theorem expireTrap_shrink_end_time (s : StarState) (now : ℚ) : (expireTrap s now).shrink_end_time = s.shrink_end_time := by unfold expireTrap; split <;> rfl
@[simp] theorem expireTrap_drill_end_time (s : StarState) (now : ℚ) : (expireTrap s now).drill_end_time = s.drill_end_time := by unfold expireTrap; split <;> rfl
@[simp] theorem expireTrap_drill_saved_vx (s : StarState) (now : ℚ) : (expireTrap s now).drill_saved_vx = s.drill_saved_vx := by unfold expireTrap; split <;> rfl
@[simp] theorem expireTrap_drill_saved_vy (s : StarState) (now : ℚ) : (expireTrap s now).drill_saved_vy = s.drill_saved_vy := by unfold expireTrap; split <;> rfl

@[simp] theorem stepSpin_x (s : StarState) (now : ℚ) : (stepSpin s now).x = s.x := by unfold stepSpin; split_ifs <;> rfl
@[simp] theorem stepSpin_y (s : StarState) (now : ℚ) : (stepSpin s now).y = s.y := by unfold stepSpin; split_ifs <;> rfl
@[simp] theorem stepSpin_vx (s : StarState) (now : ℚ) : (stepSpin s now).vx = s.vx := by unfold stepSpin; split_ifs <;> rfl
@[simp] theorem stepSpin_vy (s : StarState) (now : ℚ) : (stepSpin s now).vy = s.vy := by unfold stepSpin; split_ifs <;> rfl
@[simp] theorem stepSpin_current_scale (s : StarState) (now : ℚ) : (stepSpin s now).current_scale = s.current_scale := by unfold stepSpin; split_ifs <;> rfl
@[simp] theorem stepSpin_target_scale (s : StarState) (now : ℚ) : (stepSpin s now).target_scale = s.target_scale := by unfold stepSpin; split_ifs <;> rfl
@[simp] theorem stepSpin_rotation_angle (s : StarState) (now : ℚ) : (stepSpin s now).rotation_angle = s.rotation_angle := by unfold stepSpin; split_ifs <;> rfl
@[simp] theorem stepSpin_heartbeat_pulse (s : StarState) (now : ℚ) : (stepSpin s now).heartbeat_pulse = s.heartbeat_pulse := by unfold stepSpin; split_ifs <;> rfl
@[simp] theorem stepSpin_wall_impact (s : StarState) (now : ℚ) : (stepSpin s now).wall_impact = s.wall_impact := by unfold stepSpin; split_ifs <;> rfl
@[simp] theorem stepSpin_effect_start_time (s : StarState) (now : ℚ) : (stepSpin s now).effect_start_time = s.effect_start_time := by unfold stepSpin; split_ifs <;> rfl
@[simp] theorem stepSpin_spin_out_ramp_start (s : StarState) (now : ℚ) : (stepSpin s now).spin_out_ramp_start = s.spin_out_ramp_start := by unfold stepSpin; split_ifs <;> rfl
@[simp] theorem stepSpin_corner_trapped (s : StarState) (now : ℚ) : (stepSpin s now).corner_trapped = s.corner_trapped := by unfold stepSpin; split_ifs <;> rfl
@[simp] theorem stepSpin_trap_corner_x (s : StarState) (now : ℚ) : (stepSpin s now).trap_corner_x = s.trap_corner_x := by unfold stepSpin; split_ifs <;> rfl
@[simp] theorem stepSpin_trap_corner_y (s : StarState) (now : ℚ) : (stepSpin s now).trap_corner_y = s.trap_corner_y := by unfold stepSpin; split_ifs <;> rfl
@[simp] theorem stepSpin_saved_vx (s : StarState) (now : ℚ) : (stepSpin s now).saved_vx = s.saved_vx := by unfold stepSpin; split_ifs <;> rfl
@[simp] theorem stepSpin_saved_vy (s : StarState) (now : ℚ) : (stepSpin s now).saved_vy = s.saved_vy := by unfold stepSpin; split_ifs <;> rfl
@[simp] theorem stepSpin_shrink_end_time (s : StarState) (now : ℚ) : (stepSpin s now).shrink_end_time = s.shrink_end_time := by unfold stepSpin; split_ifs <;> rfl
@[simp] theorem stepSpin_drill_end_time (s : StarState) (now : ℚ) : (stepSpin s now).drill_end_time = s.drill_end_time := by unfold stepSpin; split_ifs <;> rfl
@[simp] theorem stepSpin_drill_saved_vx (s : StarState) (now : ℚ) : (stepSpin s now).drill_saved_vx = s.drill_saved_vx := by unfold stepSpin; split_ifs <;> rfl
@[simp] theorem stepSpin_drill_saved_vy (s : StarState) (now : ℚ) : (stepSpin s now).drill_saved_vy = s.drill_saved_vy := by unfold stepSpin; split_ifs <;> rfl

@[simp] theorem updateEyes_x (s : StarState) : (updateEyes s).x = s.x := by unfold updateEyes; split <;> rfl
@[simp] theorem updateEyes_y (s : StarState) : (updateEyes s).y = s.y := by unfold updateEyes; split <;> rfl
@[simp] theorem updateEyes_vx (s : StarState) : (updateEyes s).vx = s.vx := by unfold updateEyes; split <;> rfl
@[simp] theorem updateEyes_vy (s : StarState) : (updateEyes s).vy = s.vy := by unfold updateEyes; split <;> rfl
@[simp] theorem updateEyes_current_scale (s : StarState) : (updateEyes s).current_scale = s.current_scale := by unfold updateEyes; split <;> rfl
@[simp] theorem updateEyes_target_scale (s : StarState) : (updateEyes s).target_scale = s.target_scale := by unfold updateEyes; split <;> rfl
@[simp] theorem updateEyes_rotation_angle (s : StarState) : (updateEyes s).rotation_angle = s.rotation_angle := by unfold updateEyes; split <;> rfl
@[simp] theorem updateEyes_rotation_speed (s : StarState) : (updateEyes s).rotation_speed = s.rotation_speed := by unfold updateEyes; split <;> rfl
@[simp] theorem updateEyes_heartbeat_pulse (s : StarState) : (updateEyes s).heartbeat_pulse = s.heartbeat_pulse := by unfold updateEyes; split <;> rfl
@[simp] theorem updateEyes_wall_impact (s : StarState) : (updateEyes s).wall_impact = s.wall_impact := by unfold updateEyes; split <;> rfl
@[simp] theorem updateEyes_effect_active (s : StarState) : (updateEyes s).effect_active = s.effect_active := by unfold updateEyes; split <;> rfl
@[simp] theorem updateEyes_effect_start_time (s : StarState) : (updateEyes s).effect_start_time = s.effect_start_time := by unfold updateEyes; split <;> rfl
@[simp] theorem updateEyes_spin_out_phase (s : StarState) : (updateEyes s).spin_out_phase = s.spin_out_phase := by unfold updateEyes; split <;> rfl
@[simp] theorem updateEyes_spin_out_ramp_start (s : StarState) : (updateEyes s).spin_out_ramp_start = s.spin_out_ramp_start := by unfold updateEyes; split <;> rfl
@[simp] theorem updateEyes_corner_trapped (s : StarState) : (updateEyes s).corner_trapped = s.corner_trapped := by unfold updateEyes; split <;> rfl
@[simp] theorem updateEyes_trap_corner_x (s : StarState) : (updateEyes s).trap_corner_x = s.trap_corner_x := by unfold updateEyes; split <;> rfl
@[simp] theorem updateEyes_trap_corner_y (s : StarState) : (updateEyes s).trap_corner_y = s.trap_corner_y := by unfold updateEyes; split <;> rfl
@[simp] theorem updateEyes_saved_vx (s : StarState) : (updateEyes s).saved_vx = s.saved_vx := by unfold updateEyes; split <;> rfl
@[simp] theorem updateEyes_saved_vy (s : StarState) : (updateEyes s).saved_vy = s.saved_vy := by unfold updateEyes; split <;> rfl
@[simp] theorem updateEyes_shrink_end_time (s : StarState) : (updateEyes s).shrink_end_time = s.shrink_end_time := by unfold updateEyes; split <;> rfl
@[simp] theorem updateEyes_drill_end_time (s : StarState) : (updateEyes s).drill_end_time = s.drill_end_time := by unfold updateEyes; split <;> rfl
@[simp] theorem updateEyes_drill_saved_vx (s : StarState) : (updateEyes s).drill_saved_vx = s.drill_saved_vx := by unfold updateEyes; split <;> rfl
@[simp] theorem updateEyes_drill_saved_vy (s : StarState) : (updateEyes s).drill_saved_vy = s.drill_saved_vy := by unfold updateEyes; split <;> rfl

@[simp] theorem cancelSpinOut_x (s : StarState) : (cancelSpinOut s).x = s.x := by unfold cancelSpinOut; split <;> rfl
@[simp] theorem cancelSpinOut_y (s : StarState) : (cancelSpinOut s).y = s.y := by unfold cancelSpinOut; split <;> rfl
@[simp] theorem cancelSpinOut_vx (s : StarState) : (cancelSpinOut s).vx = s.vx := by unfold cancelSpinOut; split <;> rfl
@[simp] theorem cancelSpinOut_vy (s : StarState) : (cancelSpinOut s).vy = s.vy := by unfold cancelSpinOut; split <;> rfl
@[simp] theorem cancelSpinOut_current_scale (s : StarState) : (cancelSpinOut s).current_scale = s.current_scale := by unfold cancelSpinOut; split <;> rfl
@[simp] theorem cancelSpinOut_target_scale (s : StarState) : (cancelSpinOut s).target_scale = s.target_scale := by unfold cancelSpinOut; split <;> rfl
@[simp] theorem cancelSpinOut_rotation_angle (s : StarState) : (cancelSpinOut s).rotation_angle = s.rotation_angle := by unfold cancelSpinOut; split <;> rfl
@[simp] theorem cancelSpinOut_heartbeat_pulse (s : StarState) : (cancelSpinOut s).heartbeat_pulse = s.heartbeat_pulse := by unfold cancelSpinOut; split <;> rfl
@[simp] theorem cancelSpinOut_wall_impact (s : StarState) : (cancelSpinOut s).wall_impact = s.wall_impact := by unfold cancelSpinOut; split <;> rfl
@[simp] theorem cancelSpinOut_effect_active (s : StarState) : (cancelSpinOut s).effect_active = s.effect_active := by unfold cancelSpinOut; split <;> rfl
@[simp] theorem cancelSpinOut_effect_start_time (s : StarState) : (cancelSpinOut s).effect_start_time = s.effect_start_time := by unfold cancelSpinOut; split <;> rfl
@[simp] theorem cancelSpinOut_spin_out_ramp_start (s : StarState) : (cancelSpinOut s).spin_out_ramp_start = s.spin_out_ramp_start := by unfold cancelSpinOut; split <;> rfl
@[simp] theorem cancelSpinOut_corner_trapped (s : StarState) : (cancelSpinOut s).corner_trapped = s.corner_trapped := by unfold cancelSpinOut; split <;> rfl
@[simp] theorem cancelSpinOut_trap_corner_x (s : StarState) : (cancelSpinOut s).trap_corner_x = s.trap_corner_x := by unfold cancelSpinOut; split <;> rfl
@[simp] theorem cancelSpinOut_trap_corner_y (s : StarState) : (cancelSpinOut s).trap_corner_y = s.trap_corner_y := by unfold cancelSpinOut; split <;> rfl
@[simp] theorem cancelSpinOut_saved_vx (s : StarState) : (cancelSpinOut s).saved_vx = s.saved_vx := by unfold cancelSpinOut; split <;> rfl
@[simp] theorem cancelSpinOut_saved_vy (s : StarState) : (cancelSpinOut s).saved_vy = s.saved_vy := by unfold cancelSpinOut; split <;> rfl
@[simp] theorem cancelSpinOut_shrink_end_time (s : StarState) : (cancelSpinOut s).shrink_end_time = s.shrink_end_time := by unfold cancelSpinOut; split <;> rfl
@[simp] theorem cancelSpinOut_drill_end_time (s : StarState) : (cancelSpinOut s).drill_end_time = s.drill_end_time := by unfold cancelSpinOut; split <;> rfl
@[simp] theorem cancelSpinOut_drill_saved_vx (s : StarState) : (cancelSpinOut s).drill_saved_vx = s.drill_saved_vx := by unfold cancelSpinOut; split <;> rfl
@[simp] theorem cancelSpinOut_drill_saved_vy (s : StarState) : (cancelSpinOut s).drill_saved_vy = s.drill_saved_vy := by unfold cancelSpinOut; split <;> rfl

@[simp] theorem cancelDrill_x (s : StarState) (now : ℚ) : (cancelDrill s now).x = s.x := by unfold cancelDrill; split <;> rfl
@[simp] theorem cancelDrill_y (s : StarState) (now : ℚ) : (cancelDrill s now).y = s.y := by unfold cancelDrill; split <;> rfl
@[simp] theorem cancelDrill_current_scale (s : StarState) (now : ℚ) : (cancelDrill s now).current_scale = s.current_scale := by unfold cancelDrill; split <;> rfl
@[simp] theorem cancelDrill_target_scale (s : StarState) (now : ℚ) : (cancelDrill s now).target_scale = s.target_scale := by unfold cancelDrill; split <;> rfl
@[simp] theorem cancelDrill_rotation_angle (s : StarState) (now : ℚ) : (cancelDrill s now).rotation_angle = s.rotation_angle := by unfold cancelDrill; split <;> rfl
@[simp] theorem cancelDrill_heartbeat_pulse (s : StarState) (now : ℚ) : (cancelDrill s now).heartbeat_pulse = s.heartbeat_pulse := by unfold cancelDrill; split <;> rfl
@[simp] theorem cancelDrill_wall_impact (s : StarState) (now : ℚ) : (cancelDrill s now).wall_impact = s.wall_impact := by unfold cancelDrill; split <;> rfl
@[simp] theorem cancelDrill_effect_active (s : StarState) (now : ℚ) : (cancelDrill s now).effect_active = s.effect_active := by unfold cancelDrill; split <;> rfl
@[simp] theorem cancelDrill_effect_start_time (s : StarState) (now : ℚ) : (cancelDrill s now).effect_start_time = s.effect_start_time := by unfold cancelDrill; split <;> rfl
@[simp] theorem cancelDrill_spin_out_phase (s : StarState) (now : ℚ) : (cancelDrill s now).spin_out_phase = s.spin_out_phase := by unfold cancelDrill; split <;> rfl
@[simp] theorem cancelDrill_spin_out_ramp_start (s : StarState) (now : ℚ) : (cancelDrill s now).spin_out_ramp_start = s.spin_out_ramp_start := by unfold cancelDrill; split <;> rfl
@[simp] theorem cancelDrill_corner_trapped (s : StarState) (now : ℚ) : (cancelDrill s now).corner_trapped = s.corner_trapped := by unfold cancelDrill; split <;> rfl
@[simp] theorem cancelDrill_trap_corner_x (s : StarState) (now : ℚ) : (cancelDrill s now).trap_corner_x = s.trap_corner_x := by unfold cancelDrill; split <;> rfl
@[simp] theorem cancelDrill_trap_corner_y (s : StarState) (now : ℚ) : (cancelDrill s now).trap_corner_y = s.trap_corner_y := by unfold cancelDrill; split <;> rfl
@[simp] theorem cancelDrill_saved_vx (s : StarState) (now : ℚ) : (cancelDrill s now).saved_vx = s.saved_vx := by unfold cancelDrill; split <;> rfl
@[simp] theorem cancelDrill_saved_vy (s : StarState) (now : ℚ) : (cancelDrill s now).saved_vy = s.saved_vy := by unfold cancelDrill; split <;> rfl
@[simp] theorem cancelDrill_shrink_end_time (s : StarState) (now : ℚ) : (cancelDrill s now).shrink_end_time = s.shrink_end_time := by unfold cancelDrill; split <;> rfl
@[simp] theorem cancelDrill_drill_saved_vx (s : StarState) (now : ℚ) : (cancelDrill s now).drill_saved_vx = s.drill_saved_vx := by unfold cancelDrill; split <;> rfl
@[simp] theorem cancelDrill_drill_saved_vy (s : StarState) (now : ℚ) : (cancelDrill s now).drill_saved_vy = s.drill_saved_vy := by unfold cancelDrill; split <;> rfl

/-! Characterizations of the conditionally-written fields of each block. -/

@[simp] theorem decayImpact_wall_impact (s : StarState) :
    (decayImpact s).wall_impact = s.wall_impact * 0.85 := rfl

@[simp] theorem expireShrink_shrink_end_time (s : StarState) (now : ℚ) :
    (expireShrink s now).shrink_end_time =
      if 0 < s.shrink_end_time ∧ s.shrink_end_time ≤ now then 0
      else s.shrink_end_time := by
  unfold expireShrink; split_ifs <;> rfl

@[simp] theorem expireShrink_target_scale (s : StarState) (now : ℚ) :
    (expireShrink s now).target_scale =
      if 0 < s.shrink_end_time ∧ s.shrink_end_time ≤ now then 1
      else s.target_scale := by
  unfold expireShrink; split_ifs <;> rfl

@[simp] theorem expireShrink_effect_active (s : StarState) (now : ℚ) :
    (expireShrink s now).effect_active =
      if 0 < s.shrink_end_time ∧ s.shrink_end_time ≤ now then
        (if s.effect_active = some "shrink" then none else s.effect_active)
      else s.effect_active := by
  unfold expireShrink; split_ifs <;> rfl

@[simp] theorem expireDrill_vx (s : StarState) (now : ℚ) :
    (expireDrill s now).vx =
      if 0 < s.drill_end_time ∧ s.drill_end_time ≤ now then s.drill_saved_vx
      else s.vx := by
  unfold expireDrill; split_ifs <;> rfl

@[simp] theorem expireDrill_vy (s : StarState) (now : ℚ) :
    (expireDrill s now).vy =
      if 0 < s.drill_end_time ∧ s.drill_end_time ≤ now then s.drill_saved_vy
      else s.vy := by
  unfold expireDrill; split_ifs <;> rfl

@[simp] theorem expireDrill_rotation_speed (s : StarState) (now : ℚ) :
    (expireDrill s now).rotation_speed =
      if 0 < s.drill_end_time ∧ s.drill_end_time ≤ now then default_rotation_speed
      else s.rotation_speed := by
  unfold expireDrill; split_ifs <;> rfl

@[simp] theorem expireDrill_drill_end_time (s : StarState) (now : ℚ) :
    (expireDrill s now).drill_end_time =
      if 0 < s.drill_end_time ∧ s.drill_end_time ≤ now then 0
      else s.drill_end_time := by
  unfold expireDrill; split_ifs <;> rfl

@[simp] theorem expireDrill_effect_active (s : StarState) (now : ℚ) :
    (expireDrill s now).effect_active =
      if 0 < s.drill_end_time ∧ s.drill_end_time ≤ now then
        (if s.effect_active = some "drill" then none else s.effect_active)
      else s.effect_active := by
  unfold expireDrill; split_ifs <;> rfl

@[simp] theorem expireTrap_corner_trapped (s : StarState) (now : ℚ) :
    (expireTrap s now).corner_trapped =
      if s.corner_trapped ∧ 10 ≤ now - s.effect_start_time then false
      else s.corner_trapped := by
  unfold expireTrap; split_ifs <;> rfl

@[simp] theorem expireTrap_vx (s : StarState) (now : ℚ) :
    (expireTrap s now).vx =
      if s.corner_trapped ∧ 10 ≤ now - s.effect_start_time then s.saved_vx
      else s.vx := by
  unfold expireTrap; split_ifs <;> rfl

@[simp] theorem expireTrap_vy (s : StarState) (now : ℚ) :
    (expireTrap s now).vy =
      if s.corner_trapped ∧ 10 ≤ now - s.effect_start_time then s.saved_vy
      else s.vy := by
  unfold expireTrap; split_ifs <;> rfl

@[simp] theorem expireTrap_effect_active (s : StarState) (now : ℚ) :
    (expireTrap s now).effect_active =
      if s.corner_trapped ∧ 10 ≤ now - s.effect_start_time then
        (if s.effect_active = some "corner_trap" then none else s.effect_active)
      else s.effect_active := by
  unfold expireTrap; split_ifs <;> rfl

@[simp] theorem stepSpin_rotation_speed (s : StarState) (now : ℚ) :
    (stepSpin s now).rotation_speed =
      if s.spin_out_phase = some "ramp" then
        (if now - s.spin_out_ramp_start < 2 then 1 + (now - s.spin_out_ramp_start) * 5
         else s.rotation_speed)
      else if s.spin_out_phase = some "decay" then
        (if s.rotation_speed * 0.992 < 0.1 then default_rotation_speed
         else s.rotation_speed * 0.992)
      else s.rotation_speed := by
  unfold stepSpin; split_ifs <;> rfl

@[simp] theorem stepSpin_spin_out_phase (s : StarState) (now : ℚ) :
    (stepSpin s now).spin_out_phase =
      if s.spin_out_phase = some "ramp" then
        (if now - s.spin_out_ramp_start < 2 then some "ramp" else some "decay")
      else if s.spin_out_phase = some "decay" then
        (if s.rotation_speed * 0.992 < 0.1 then none else some "decay")
      else s.spin_out_phase := by
  unfold stepSpin; split_ifs <;> simp_all

@[simp] theorem stepSpin_effect_active (s : StarState) (now : ℚ) :
    (stepSpin s now).effect_active =
      if s.spin_out_phase = some "decay" ∧ s.rotation_speed * 0.992 < 0.1 then
        (if s.effect_active = some "spin_out" then none else s.effect_active)
      else s.effect_active := by
  unfold stepSpin; split_ifs <;> simp_all

@[simp] theorem cancelSpinOut_spin_out_phase (s : StarState) :
    (cancelSpinOut s).spin_out_phase = none := by
  unfold cancelSpinOut
  split_ifs with h
  · rfl
  · exact Option.not_isSome_iff_eq_none.mp h

@[simp] theorem cancelSpinOut_rotation_speed (s : StarState) :
    (cancelSpinOut s).rotation_speed =
      if s.spin_out_phase.isSome then default_rotation_speed
      else s.rotation_speed := by
  unfold cancelSpinOut; split_ifs <;> rfl

@[simp] theorem cancelDrill_drill_end_time (s : StarState) (now : ℚ) :
    (cancelDrill s now).drill_end_time =
      if now < s.drill_end_time then 0 else s.drill_end_time := by
  unfold cancelDrill; split_ifs <;> rfl

@[simp] theorem cancelDrill_vx (s : StarState) (now : ℚ) :
    (cancelDrill s now).vx =
      if now < s.drill_end_time then s.drill_saved_vx else s.vx := by
  unfold cancelDrill; split_ifs <;> rfl

@[simp] theorem cancelDrill_vy (s : StarState) (now : ℚ) :
    (cancelDrill s now).vy =
      if now < s.drill_end_time then s.drill_saved_vy else s.vy := by
  unfold cancelDrill; split_ifs <;> rfl

@[simp] theorem cancelDrill_rotation_speed (s : StarState) (now : ℚ) :
    (cancelDrill s now).rotation_speed =
      if now < s.drill_end_time then default_rotation_speed
      else s.rotation_speed := by
  unfold cancelDrill; split_ifs <;> rfl
/-! Projections of `preMoveState`: everything except the scale fields and
the rotation angle comes straight from `effectsState`. -/

@[simp] theorem preMoveState_x (sv : Screensaver) (i : TickInput) : (preMoveState sv i).x = (effectsState sv i).x := rfl
@[simp] theorem preMoveState_y (sv : Screensaver) (i : TickInput) : (preMoveState sv i).y = (effectsState sv i).y := rfl
@[simp] theorem preMoveState_vx (sv : Screensaver) (i : TickInput) : (preMoveState sv i).vx = (effectsState sv i).vx := rfl
@[simp] theorem preMoveState_vy (sv : Screensaver) (i : TickInput) : (preMoveState sv i).vy = (effectsState sv i).vy := rfl
@[simp] theorem preMoveState_rotation_speed (sv : Screensaver) (i : TickInput) : (preMoveState sv i).rotation_speed = (effectsState sv i).rotation_speed := rfl
@[simp] theorem preMoveState_heartbeat_pulse (sv : Screensaver) (i : TickInput) : (preMoveState sv i).heartbeat_pulse = (effectsState sv i).heartbeat_pulse := rfl
@[simp] theorem preMoveState_wall_impact (sv : Screensaver) (i : TickInput) : (preMoveState sv i).wall_impact = (effectsState sv i).wall_impact := rfl
@[simp] theorem preMoveState_effect_active (sv : Screensaver) (i : TickInput) : (preMoveState sv i).effect_active = (effectsState sv i).effect_active := rfl
@[simp] theorem preMoveState_effect_start_time (sv : Screensaver) (i : TickInput) : (preMoveState sv i).effect_start_time = (effectsState sv i).effect_start_time := rfl
@[simp] theorem preMoveState_spin_out_phase (sv : Screensaver) (i : TickInput) : (preMoveState sv i).spin_out_phase = (effectsState sv i).spin_out_phase := rfl
@[simp] theorem preMoveState_spin_out_ramp_start (sv : Screensaver) (i : TickInput) : (preMoveState sv i).spin_out_ramp_start = (effectsState sv i).spin_out_ramp_start := rfl
@[simp] theorem preMoveState_corner_trapped (sv : Screensaver) (i : TickInput) : (preMoveState sv i).corner_trapped = (effectsState sv i).corner_trapped := rfl
@[simp] theorem preMoveState_trap_corner_x (sv : Screensaver) (i : TickInput) : (preMoveState sv i).trap_corner_x = (effectsState sv i).trap_corner_x := rfl
@[simp] theorem preMoveState_trap_corner_y (sv : Screensaver) (i : TickInput) : (preMoveState sv i).trap_corner_y = (effectsState sv i).trap_corner_y := rfl
@[simp] theorem preMoveState_saved_vx (sv : Screensaver) (i : TickInput) : (preMoveState sv i).saved_vx = (effectsState sv i).saved_vx := rfl
@[simp] theorem preMoveState_saved_vy (sv : Screensaver) (i : TickInput) : (preMoveState sv i).saved_vy = (effectsState sv i).saved_vy := rfl
@[simp] theorem preMoveState_shrink_end_time (sv : Screensaver) (i : TickInput) : (preMoveState sv i).shrink_end_time = (effectsState sv i).shrink_end_time := rfl
@[simp] theorem preMoveState_drill_end_time (sv : Screensaver) (i : TickInput) : (preMoveState sv i).drill_end_time = (effectsState sv i).drill_end_time := rfl
@[simp] theorem preMoveState_drill_saved_vx (sv : Screensaver) (i : TickInput) : (preMoveState sv i).drill_saved_vx = (effectsState sv i).drill_saved_vx := rfl
@[simp] theorem preMoveState_drill_saved_vy (sv : Screensaver) (i : TickInput) : (preMoveState sv i).drill_saved_vy = (effectsState sv i).drill_saved_vy := rfl

/-! Projections of `bounceStep`: it writes only position, velocity and the
wall impact. -/

@[simp] theorem bounceStep_current_scale (W H : ℚ) (s : StarState) : (bounceStep W H s).1.current_scale = s.current_scale := rfl
@[simp] theorem bounceStep_target_scale (W H : ℚ) (s : StarState) : (bounceStep W H s).1.target_scale = s.target_scale := rfl
@[simp] theorem bounceStep_rotation_angle (W H : ℚ) (s : StarState) : (bounceStep W H s).1.rotation_angle = s.rotation_angle := rfl
@[simp] theorem bounceStep_rotation_speed (W H : ℚ) (s : StarState) : (bounceStep W H s).1.rotation_speed = s.rotation_speed := rfl
@[simp] theorem bounceStep_heartbeat_pulse (W H : ℚ) (s : StarState) : (bounceStep W H s).1.heartbeat_pulse = s.heartbeat_pulse := rfl
@[simp] theorem bounceStep_effect_active (W H : ℚ) (s : StarState) : (bounceStep W H s).1.effect_active = s.effect_active := rfl
@[simp] theorem bounceStep_effect_start_time (W H : ℚ) (s : StarState) : (bounceStep W H s).1.effect_start_time = s.effect_start_time := rfl
@[simp] theorem bounceStep_spin_out_phase (W H : ℚ) (s : StarState) : (bounceStep W H s).1.spin_out_phase = s.spin_out_phase := rfl
@[simp] theorem bounceStep_spin_out_ramp_start (W H : ℚ) (s : StarState) : (bounceStep W H s).1.spin_out_ramp_start = s.spin_out_ramp_start := rfl
@[simp] theorem bounceStep_corner_trapped (W H : ℚ) (s : StarState) : (bounceStep W H s).1.corner_trapped = s.corner_trapped := rfl
@[simp] theorem bounceStep_trap_corner_x (W H : ℚ) (s : StarState) : (bounceStep W H s).1.trap_corner_x = s.trap_corner_x := rfl
@[simp] theorem bounceStep_trap_corner_y (W H : ℚ) (s : StarState) : (bounceStep W H s).1.trap_corner_y = s.trap_corner_y := rfl
@[simp] theorem bounceStep_saved_vx (W H : ℚ) (s : StarState) : (bounceStep W H s).1.saved_vx = s.saved_vx := rfl
@[simp] theorem bounceStep_saved_vy (W H : ℚ) (s : StarState) : (bounceStep W H s).1.saved_vy = s.saved_vy := rfl
@[simp] theorem bounceStep_shrink_end_time (W H : ℚ) (s : StarState) : (bounceStep W H s).1.shrink_end_time = s.shrink_end_time := rfl
@[simp] theorem bounceStep_drill_end_time (W H : ℚ) (s : StarState) : (bounceStep W H s).1.drill_end_time = s.drill_end_time := rfl
@[simp] theorem bounceStep_drill_saved_vx (W H : ℚ) (s : StarState) : (bounceStep W H s).1.drill_saved_vx = s.drill_saved_vx := rfl
@[simp] theorem bounceStep_drill_saved_vy (W H : ℚ) (s : StarState) : (bounceStep W H s).1.drill_saved_vy = s.drill_saved_vy := rfl
@[simp] theorem preMoveState_target_scale (sv : Screensaver) (i : TickInput) :
    (preMoveState sv i).target_scale =
      if (effectsState sv i).shrink_end_time = 0 then
        1 + (effectsState sv i).heartbeat_pulse * 0.08
      else (effectsState sv i).target_scale := rfl

@[simp] theorem preMoveState_rotation_angle (sv : Screensaver) (i : TickInput) :
    (preMoveState sv i).rotation_angle =
      (effectsState sv i).rotation_angle + (effectsState sv i).rotation_speed := rfl

@[simp] theorem bounceStep_wall_impact (W H : ℚ) (s : StarState) :
    (bounceStep W H s).1.wall_impact =
      if (bounceStep W H s).2 then 0.02 else s.wall_impact := rfl

@[simp] theorem update_display_width (sv : Screensaver) (i : TickInput) :
    (update sv i).display_width = sv.display_width := rfl

@[simp] theorem update_display_height (sv : Screensaver) (i : TickInput) :
    (update sv i).display_height = sv.display_height := rfl

/-- The corner-trapped position regime of `update()`. -/
theorem update_state_trapped {sv : Screensaver} {i : TickInput}
    (h : (preMoveState sv i).corner_trapped = true) :
    (update sv i).state =
      updateEyes { preMoveState sv i with
        x := (preMoveState sv i).trap_corner_x + (i.jx - 0.5) * 40,
        y := (preMoveState sv i).trap_corner_y + (i.jy - 0.5) * 40 } := by
  simp only [update]; rw [if_pos h]

/-- The drill-suspended position regime of `update()`: position untouched. -/
theorem update_state_drill {sv : Screensaver} {i : TickInput}
    (h : (preMoveState sv i).corner_trapped = false)
    (h2 : (preMoveState sv i).drill_end_time ≠ 0) :
    (update sv i).state = updateEyes (preMoveState sv i) := by
  simp only [update]
  rw [if_neg (by simp; exact h), if_neg h2]

/-- The free-bouncing position regime of `update()`. -/
theorem update_state_bounce {sv : Screensaver} {i : TickInput}
    (h : (preMoveState sv i).corner_trapped = false)
    (h2 : (preMoveState sv i).drill_end_time = 0) :
    (update sv i).state =
      updateEyes (bounceStep sv.display_width sv.display_height (preMoveState sv i)).1 := by
  simp only [update]
  rw [if_neg (by simp; exact h), if_pos h2]
/-- C6: for every action string outside the valid-action list and every
parameter map, `manipulate` leaves the screensaver completely unchanged,
and the `manipulate_star` entry point reports a request error (the
invalid-action error, or the missing-action error for a falsy empty
string) without reaching the simulation. -/
theorem unknown_action_rejected (a : String) (h : a ∉ validActions)
    (sv : Screensaver) (ps : ManipParams) (now : ℚ) :
    manipulate sv a ps now = sv ∧
      ∃ msg, manipulateStar sv (some a) ps now = Except.error msg := by
  have h' := h
  simp only [validActions, List.mem_cons, List.mem_singleton, not_or] at h'
  obtain ⟨h1, h2, h3, h4, h5, h6, h7, h8⟩ := h'
  refine ⟨by simp [manipulate, h1, h2, h3, h4, h5, h6, h7, h8], ?_⟩
  by_cases he : a = ""
  · exact ⟨"Missing action parameter", by simp [manipulateStar, he]⟩
  · exact ⟨"Invalid action", by simp [manipulateStar, he, h]⟩

/-- Witness for C6 at the concrete unknown action `"explode"`. -/
theorem unknown_action_rejected_witness :
    manipulate (initSaver 1280 720) "explode" {} 0 = initSaver 1280 720 ∧
      ∃ msg, manipulateStar (initSaver 1280 720) (some "explode") {} 0 =
        Except.error msg :=
  unknown_action_rejected "explode" (by simp [validActions]) (initSaver 1280 720) {} 0

/-- C7: an `opacity` command with any numeric parameter (or none,
defaulting to 1.0) leaves `opacity` clamped into `[0, 1]`, and a `color`
command with any string parameter (or none, defaulting to the base
color) leaves a color that starts with `'#'`. -/
theorem opacity_clamped_color_prefixed (sv : Screensaver) (ps : ManipParams)
    (now : ℚ) :
    (0 ≤ (manipulate sv "opacity" ps now).state.opacity ∧
      (manipulate sv "opacity" ps now).state.opacity ≤ 1) ∧
    startsWithHash (manipulate sv "color" ps now).state.color = true := by
  refine ⟨⟨?_, ?_⟩, ?_⟩
  · simp [manipulate]
  · simp only [manipulate]
    simp only [String.reduceEq, if_false, if_true, reduceIte]
    exact max_le (by norm_num) (min_le_left 1 _)
  · simp only [manipulate]
    simp only [String.reduceEq, if_false, if_true, reduceIte]
    by_cases hc : startsWithHash (ps.color.getD default_color)
    · simp [hc]
    · simp only [hc, if_false, Bool.false_eq_true, reduceIte]
      unfold startsWithHash
      rw [String.data_append]
      rfl
/-- C2 (amended): `manipulate("reset")` is idempotent, and it restores
exactly the fields `_reset_state` writes — scale (current and target),
rotation speed, color, opacity, the `effect_active` tag, every effect
flag and timer, the velocity, and the eyes — to their documented
defaults; but it leaves position, rotation angle, wall impact and
heartbeat pulse untouched, so the status after a reset is not in general
the default status. -/
theorem reset_restores_defaults (sv : Screensaver) (ps ps2 : ManipParams) (t t2 : ℚ) :
    manipulate (manipulate sv "reset" ps t) "reset" ps2 t2 = manipulate sv "reset" ps t ∧
    ((manipulate sv "reset" ps t).state.current_scale = 1 ∧
      (manipulate sv "reset" ps t).state.target_scale = 1 ∧
      (manipulate sv "reset" ps t).state.rotation_speed = default_rotation_speed ∧
      (manipulate sv "reset" ps t).state.color = default_color ∧
      (manipulate sv "reset" ps t).state.opacity = 1 ∧
      (manipulate sv "reset" ps t).state.effect_active = none ∧
      (manipulate sv "reset" ps t).state.corner_trapped = false ∧
      (manipulate sv "reset" ps t).state.spin_out_phase = none ∧
      (manipulate sv "reset" ps t).state.shrink_end_time = 0 ∧
      (manipulate sv "reset" ps t).state.color_end_time = 0 ∧
      (manipulate sv "reset" ps t).state.opacity_end_time = 0 ∧
      (manipulate sv "reset" ps t).state.drill_end_time = 0 ∧
      (manipulate sv "reset" ps t).state.vx = 0.5 ∧
      (manipulate sv "reset" ps t).state.vy = 0.5 ∧
      (manipulate sv "reset" ps t).state.eyes_enabled = false ∧
      (manipulate sv "reset" ps t).state.left_eye = defaultEyeState ∧
      (manipulate sv "reset" ps t).state.right_eye = defaultEyeState) ∧
    ((manipulate sv "reset" ps t).state.x = sv.state.x ∧
      (manipulate sv "reset" ps t).state.y = sv.state.y ∧
      (manipulate sv "reset" ps t).state.rotation_angle = sv.state.rotation_angle ∧
      (manipulate sv "reset" ps t).state.wall_impact = sv.state.wall_impact ∧
      (manipulate sv "reset" ps t).state.heartbeat_pulse = sv.state.heartbeat_pulse) :=
  ⟨rfl, ⟨rfl, rfl, rfl, rfl, rfl, rfl, rfl, rfl, rfl, rfl, rfl, rfl, rfl, rfl, rfl, rfl, rfl⟩,
    rfl, rfl, rfl, rfl, rfl⟩

/-- C2 counterexample: after a single tick from the initial state (which
advances `rotation_angle` by the default rotation speed and the position
by the launch velocity), a `reset` does not bring the status back to the
default status — `_reset_state` never touches position or rotation
angle. -/
theorem reset_status_counterexample :
    getStatus (manipulate (update (initSaver 1280 720) ⟨0, 0, 0, 0⟩) "reset" {} 1)
      ≠ getStatus (initSaver 1280 720) := by
  simp [getStatus, update, preMoveState, effectsState, updateEffects, stepSpin, expireTrap,
        expireDrill, expireOpacity, expireColor, expireShrink, decayImpact, manipulate,
        initSaver, resetState, cancelSpinOut, defaultStarState, updateEyes, bounceStep,
        default_rotation_speed, star_base_size, StarStatus.mk.injEq]
  norm_num
theorem updateEffects_drill_end_cases (s : StarState) (now : ℚ) :
    (updateEffects s now).drill_end_time = 0 ∨
      ((updateEffects s now).drill_end_time = s.drill_end_time ∧
        ¬(0 < s.drill_end_time ∧ s.drill_end_time ≤ now)) := by
  by_cases hc : 0 < s.drill_end_time ∧ s.drill_end_time ≤ now
  · left; simp [updateEffects, hc]
  · right; simp [updateEffects, hc]

theorem updateEffects_phase_none (s : StarState) (now : ℚ)
    (hs : s.spin_out_phase = none) :
    (updateEffects s now).spin_out_phase = none := by
  simp [updateEffects, hs]

theorem update_spin_out_phase (sv : Screensaver) (i : TickInput) :
    (update sv i).state.spin_out_phase = (effectsState sv i).spin_out_phase := by
  simp only [update]; split_ifs <;> simp

theorem update_drill_end_time (sv : Screensaver) (i : TickInput) :
    (update sv i).state.drill_end_time = (effectsState sv i).drill_end_time := by
  simp only [update]; split_ifs <;> simp

theorem reach_invariant {sv : Screensaver} {t : ℚ} (h : Reach sv t) :
    0 ≤ t ∧ 0 ≤ sv.state.drill_end_time ∧
      (sv.state.spin_out_phase ≠ none → sv.state.drill_end_time ≤ t) := by
  induction h with
  | init W H t ht =>
      exact ⟨ht, by simp [initSaver, defaultStarState],
        by simp [initSaver, defaultStarState]⟩
  | manip a ps h hle ih =>
      rename_i sv0 t0 t1
      obtain ⟨ht0, hend0, hinv0⟩ := ih
      have ht1 := le_trans ht0 hle
      refine ⟨ht1, ?_⟩
      by_cases h1 : a = "shrink"
      · subst h1
        exact ⟨by simpa [manipulate] using hend0,
          fun hp => by
            rw [show (manipulate sv0 "shrink" ps t1).state.drill_end_time =
                  sv0.state.drill_end_time by simp [manipulate]]
            exact le_trans (hinv0 (by simpa [manipulate] using hp)) hle⟩
      by_cases h2 : a = "spin_out"
      · subst h2
        constructor
        · simp only [manipulate, String.reduceEq, if_true, if_false, reduceIte]
          simp only [cancelSpinOut_drill_end_time, cancelDrill_drill_end_time]
          split_ifs with hlt
          · exact le_refl 0
          · exact hend0
        · intro _
          simp only [manipulate, String.reduceEq, if_true, if_false, reduceIte]
          simp only [cancelSpinOut_drill_end_time, cancelDrill_drill_end_time]
          split_ifs with hlt
          · exact ht1
          · exact le_of_not_lt hlt
      by_cases h3 : a = "drill"
      · subst h3
        constructor
        · simp only [manipulate, String.reduceEq, if_true, if_false, reduceIte]
          linarith
        · intro hp
          exfalso
          apply hp
          simp [manipulate]
      by_cases h4 : a = "corner_trap"
      · subst h4
        exact ⟨by simpa [manipulate] using hend0,
          fun hp => by
            rw [show (manipulate sv0 "corner_trap" ps t1).state.drill_end_time =
                  sv0.state.drill_end_time by simp [manipulate]]
            exact le_trans (hinv0 (by simpa [manipulate] using hp)) hle⟩
      by_cases h5 : a = "color"
      · subst h5
        exact ⟨by simpa [manipulate] using hend0,
          fun hp => by
            rw [show (manipulate sv0 "color" ps t1).state.drill_end_time =
                  sv0.state.drill_end_time by simp [manipulate]]
            exact le_trans (hinv0 (by simpa [manipulate] using hp)) hle⟩
      by_cases h6 : a = "opacity"
      · subst h6
        exact ⟨by simpa [manipulate] using hend0,
          fun hp => by
            rw [show (manipulate sv0 "opacity" ps t1).state.drill_end_time =
                  sv0.state.drill_end_time by simp [manipulate]]
            exact le_trans (hinv0 (by simpa [manipulate] using hp)) hle⟩
      by_cases h7 : a = "googly_eyes"
      · subst h7
        exact ⟨by simpa [manipulate] using hend0,
          fun hp => by
            rw [show (manipulate sv0 "googly_eyes" ps t1).state.drill_end_time =
                  sv0.state.drill_end_time by simp [manipulate]]
            exact le_trans (hinv0 (by simpa [manipulate] using hp)) hle⟩
      by_cases h8 : a = "reset"
      · subst h8
        constructor
        · simp [manipulate, resetState]
        · intro hp
          exfalso
          apply hp
          simp [manipulate, resetState]
      · exact ⟨by simpa [manipulate, h1, h2, h3, h4, h5, h6, h7, h8] using hend0,
          fun hp => by
            rw [show (manipulate _ a ps t1).state.drill_end_time =
                  sv0.state.drill_end_time by simp [manipulate, h1, h2, h3, h4, h5, h6, h7, h8]]
            exact le_trans
              (hinv0 (by simpa [manipulate, h1, h2, h3, h4, h5, h6, h7, h8] using hp)) hle⟩
  | tick i h hle ih =>
      rename_i sv0 t0
      obtain ⟨ht0, hend0, hinv0⟩ := ih
      have ht1 := le_trans ht0 hle
      refine ⟨ht1, ?_, ?_⟩
      · rw [update_drill_end_time]
        rcases updateEffects_drill_end_cases
            { sv0.state with heartbeat_pulse := i.hb } i.now with h0 | ⟨heq, _⟩
        · simp only [effectsState]; rw [h0]
        · simp only [effectsState]; rw [heq]; exact hend0
      · intro hp
        rw [update_spin_out_phase] at hp
        have hpre : sv0.state.spin_out_phase ≠ none := by
          intro hn
          exact hp (by
            simp only [effectsState]
            exact updateEffects_phase_none _ _ hn)
        have hle2 : sv0.state.drill_end_time ≤ i.now := le_trans (hinv0 hpre) hle
        rw [update_drill_end_time]
        rcases updateEffects_drill_end_cases
            { sv0.state with heartbeat_pulse := i.hb } i.now with h0 | ⟨heq, _⟩
        · simp only [effectsState]; rw [h0]; exact ht1
        · simp only [effectsState]; rw [heq]; exact hle2

/-- C1 (amended): in every reachable configuration, an active spin-out
excludes a *non-expired* drill deadline: if `spin_out_phase` is not
`none` then `drill_end_time` is not in the future.  (The original claim
— `spin_out_phase != none` and `drill_end_time > 0` never coexist — is
too strong: `_cancel_drill` only cancels a drill whose deadline is still
in the future, so a stale, already-elapsed `drill_end_time > 0` can
coexist with a fresh spin-out until the next tick clears it; see the
counterexample.) -/
theorem spin_drill_never_both_active {sv : Screensaver} {t : ℚ}
    (h : Reach sv t) :
    ¬(sv.state.spin_out_phase ≠ none ∧ t < sv.state.drill_end_time) := by
  rintro ⟨hp, hlt⟩
  exact absurd ((reach_invariant h).2.2 hp) (not_le.mpr hlt)

/-- Witness for C1 at the initial configuration. -/
theorem spin_drill_never_both_active_witness :
    ¬((initSaver 1280 720).state.spin_out_phase ≠ none ∧
        (0 : ℚ) < (initSaver 1280 720).state.drill_end_time) :=
  spin_drill_never_both_active (Reach.init 1280 720 0 le_rfl)

/-- C1 counterexample: start a drill at time 0 (deadline 3) and, with no
tick in between, a spin-out at time 5.  The drill deadline has already
elapsed, so `_cancel_drill` does not clear it: the resulting reachable
state has `spin_out_phase = some "ramp"` and `drill_end_time = 3 > 0`
simultaneously, contradicting the claim as stated. -/
theorem spin_drill_coexist_counterexample :
    Reach (manipulate (manipulate (initSaver 1280 720) "drill" {} 0)
        "spin_out" {} 5) 5 ∧
    (manipulate (manipulate (initSaver 1280 720) "drill" {} 0)
        "spin_out" {} 5).state.spin_out_phase ≠ none ∧
    0 < (manipulate (manipulate (initSaver 1280 720) "drill" {} 0)
        "spin_out" {} 5).state.drill_end_time := by
  refine ⟨?_, ?_, ?_⟩
  · exact Reach.manip "spin_out" {}
      (Reach.manip "drill" {} (Reach.init 1280 720 0 le_rfl) (by norm_num))
      (by norm_num)
  · simp [manipulate, initSaver, defaultStarState, cancelDrill, cancelSpinOut]
  · simp [manipulate, initSaver, defaultStarState, cancelDrill, cancelSpinOut]
    norm_num

theorem update_rotation_speed (sv : Screensaver) (i : TickInput) :
    (update sv i).state.rotation_speed = (effectsState sv i).rotation_speed := by
  simp only [update]; split_ifs <;> simp

theorem update_effect_active (sv : Screensaver) (i : TickInput) :
    (update sv i).state.effect_active = (effectsState sv i).effect_active := by
  simp only [update]; split_ifs <;> simp

/-- C5: after `manipulate("spin_out")` the phase is `"ramp"` with
`spin_out_ramp_start` stamped and speed 1; every tick of the ramp phase
with elapsed time below 2 s sets `rotation_speed = 1 + elapsed * 5`
(approaching 11 at 2 s) and stays in the ramp; a ramp tick at elapsed
time at least 2 s switches the phase to `"decay"`; and each decay tick
multiplies the speed by 0.992, restoring the default 0.5, clearing the
phase, and clearing an `effect_active = "spin_out"` tag as soon as the
product drops below 0.1.  (The decay conjunct assumes `drill_end_time =
0`, which holds on every tick after the first one following the spin-out
start: the first tick clears any stale drill deadline.) -/
theorem spin_out_dynamics :
    (∀ (sv : Screensaver) (ps : ManipParams) (t0 : ℚ),
      (manipulate sv "spin_out" ps t0).state.rotation_speed = 1 ∧
      (manipulate sv "spin_out" ps t0).state.spin_out_phase = some "ramp" ∧
      (manipulate sv "spin_out" ps t0).state.spin_out_ramp_start = t0 ∧
      (manipulate sv "spin_out" ps t0).state.effect_active = some "spin_out") ∧
    (∀ (sv : Screensaver) (i : TickInput),
      sv.state.spin_out_phase = some "ramp" →
      i.now - sv.state.spin_out_ramp_start < 2 →
      (update sv i).state.rotation_speed =
        1 + (i.now - sv.state.spin_out_ramp_start) * 5 ∧
      (update sv i).state.spin_out_phase = some "ramp") ∧
    (∀ (sv : Screensaver) (i : TickInput),
      sv.state.spin_out_phase = some "ramp" →
      2 ≤ i.now - sv.state.spin_out_ramp_start →
      (update sv i).state.spin_out_phase = some "decay") ∧
    (∀ (sv : Screensaver) (i : TickInput),
      sv.state.spin_out_phase = some "decay" →
      sv.state.drill_end_time = 0 →
      (sv.state.rotation_speed * 0.992 < 0.1 →
          (update sv i).state.rotation_speed = default_rotation_speed ∧
          (update sv i).state.spin_out_phase = none ∧
          (sv.state.effect_active = some "spin_out" →
            (update sv i).state.effect_active = none)) ∧
      (0.1 ≤ sv.state.rotation_speed * 0.992 →
          (update sv i).state.rotation_speed = sv.state.rotation_speed * 0.992 ∧
          (update sv i).state.spin_out_phase = some "decay")) := by
  refine ⟨?_, ?_, ?_, ?_⟩
  · intro sv ps t0
    refine ⟨?_, ?_, ?_, ?_⟩ <;> simp [manipulate]
  · intro sv i hph hlt
    constructor
    · rw [update_rotation_speed]
      simp [effectsState, updateEffects, hph, hlt]
    · rw [update_spin_out_phase]
      simp [effectsState, updateEffects, hph, hlt]
  · intro sv i hph hge
    rw [update_spin_out_phase]
    simp [effectsState, updateEffects, hph, not_lt.mpr hge]
  · intro sv i hph hd
    constructor
    · intro hlow
      refine ⟨?_, ?_, ?_⟩
      · rw [update_rotation_speed]
        simp [effectsState, updateEffects, hph, hd, hlow]
      · rw [update_spin_out_phase]
        simp [effectsState, updateEffects, hph, hd, hlow]
      · intro hea
        rw [update_effect_active]
        simp [effectsState, updateEffects, hph, hd, hlow, hea]
    · intro hhigh
      refine ⟨?_, ?_⟩
      · rw [update_rotation_speed]
        simp [effectsState, updateEffects, hph, hd, not_lt.mpr hhigh]
      · rw [update_spin_out_phase]
        simp [effectsState, updateEffects, hph, hd, not_lt.mpr hhigh]

/-- Witness for C5: a ramp tick at elapsed time 1 gives speed 6. -/
theorem spin_out_dynamics_witness :
    (update (manipulate (initSaver 1280 720) "spin_out" {} 0) ⟨1, 0, 0, 0⟩).state.rotation_speed =
      1 + ((1 : ℚ) -
        (manipulate (initSaver 1280 720) "spin_out" {} 0).state.spin_out_ramp_start) * 5 :=
  (spin_out_dynamics.2.1 _ ⟨1, 0, 0, 0⟩ (by simp [manipulate])
    (by simp [manipulate])).1

theorem update_drill_saved_vx (sv : Screensaver) (i : TickInput) :
    (update sv i).state.drill_saved_vx = sv.state.drill_saved_vx := by
  simp only [update]; split_ifs <;> simp [effectsState, updateEffects]

theorem update_drill_saved_vy (sv : Screensaver) (i : TickInput) :
    (update sv i).state.drill_saved_vy = sv.state.drill_saved_vy := by
  simp only [update]; split_ifs <;> simp [effectsState, updateEffects]

/-- C3 (amended): `manipulate("drill")` saves the current velocity into
`drill_saved_{vx,vy}`, zeroes the velocity, sets speed 10 and the
3-second deadline, and clears the spin-out phase; ticks strictly before
the deadline preserve the saved velocity and the deadline; and on the
first tick at or past the deadline the drill-expiration step of
`_update_effects` restores `(vx, vy)` to exactly the drill-saved values,
restores the default rotation speed, clears `drill_end_time`, and clears
an `effect_active = "drill"` tag (provided the same tick does not also
process a corner-trap expiry, whose later block would overwrite the
velocity; the spin-out phase is `none` throughout this scenario).  As
stated the claim is false for the velocity *after the full tick*: the
position update of the same tick runs with the restored velocity and may
reflect it off a wall — see the counterexample. -/
theorem drill_round_trip :
    (∀ (sv : Screensaver) (ps : ManipParams) (t0 : ℚ),
      (manipulate sv "drill" ps t0).state.drill_saved_vx = sv.state.vx ∧
      (manipulate sv "drill" ps t0).state.drill_saved_vy = sv.state.vy ∧
      (manipulate sv "drill" ps t0).state.vx = 0 ∧
      (manipulate sv "drill" ps t0).state.vy = 0 ∧
      (manipulate sv "drill" ps t0).state.rotation_speed = 10 ∧
      (manipulate sv "drill" ps t0).state.drill_end_time = t0 + 3 ∧
      (manipulate sv "drill" ps t0).state.spin_out_phase = none ∧
      (manipulate sv "drill" ps t0).state.effect_active = some "drill") ∧
    (∀ (sv : Screensaver) (L : List TickInput),
      (∀ i ∈ L, i.now < sv.state.drill_end_time) →
      (runTicks sv L).state.drill_saved_vx = sv.state.drill_saved_vx ∧
      (runTicks sv L).state.drill_saved_vy = sv.state.drill_saved_vy ∧
      (runTicks sv L).state.drill_end_time = sv.state.drill_end_time) ∧
    (∀ (s : StarState) (now : ℚ),
      0 < s.drill_end_time → s.drill_end_time ≤ now →
      ¬(s.corner_trapped = true ∧ 10 ≤ now - s.effect_start_time) →
      s.spin_out_phase = none →
      (updateEffects s now).vx = s.drill_saved_vx ∧
      (updateEffects s now).vy = s.drill_saved_vy ∧
      (updateEffects s now).rotation_speed = default_rotation_speed ∧
      (updateEffects s now).drill_end_time = 0 ∧
      (s.effect_active = some "drill" → (updateEffects s now).effect_active = none)) := by
  refine ⟨?_, ?_, ?_⟩
  · intro sv ps t0
    refine ⟨?_, ?_, ?_, ?_, ?_, ?_, ?_, ?_⟩ <;> simp [manipulate]
  · intro sv L
    induction L generalizing sv with
    | nil => intro _; exact ⟨rfl, rfl, rfl⟩
    | cons i L ih =>
        intro hall
        have hi : i.now < sv.state.drill_end_time := hall i (List.mem_cons_self i L)
        have hend : (update sv i).state.drill_end_time = sv.state.drill_end_time := by
          rw [update_drill_end_time]
          simp [effectsState, updateEffects, not_le.mpr hi]
        have h2 := ih (update sv i) (by
          intro j hj
          rw [hend]
          exact hall j (List.mem_cons_of_mem i hj))
        refine ⟨?_, ?_, ?_⟩
        · rw [show runTicks sv (i :: L) = runTicks (update sv i) L from rfl,
            h2.1, update_drill_saved_vx]
        · rw [show runTicks sv (i :: L) = runTicks (update sv i) L from rfl,
            h2.2.1, update_drill_saved_vy]
        · rw [show runTicks sv (i :: L) = runTicks (update sv i) L from rfl,
            h2.2.2, hend]
  · intro s now hd1 hd2 htr hph
    refine ⟨?_, ?_, ?_, ?_, ?_⟩
    · simp [updateEffects, hd1, hd2, htr]
    · simp [updateEffects, hd1, hd2, htr]
    · simp [updateEffects, hd1, hd2, htr, hph]
    · simp [updateEffects, hd1, hd2]
    · intro hea
      simp [updateEffects, hd1, hd2, htr, hph, hea]

/-- Witness for C3: drill expiry at its deadline restores the saved
velocity at the effects stage. -/
theorem drill_round_trip_witness :
    (updateEffects { defaultStarState with drill_end_time := 3, drill_saved_vx := -0.5 } 3).vx =
      ({ defaultStarState with drill_end_time := 3, drill_saved_vx := -0.5 } : StarState).drill_saved_vx :=
  (drill_round_trip.2.2 _ 3 (by norm_num [defaultStarState]) (le_refl 3)
    (by simp [defaultStarState]) (by simp [defaultStarState])).1

/-- C3 counterexample: a drill started at `x = 124` next to the left
wall with saved velocity `vx = -0.5`; the expiry tick restores
`vx = -0.5` in `_update_effects` and then immediately reflects it to
`+0.5` at the wall, so after the ticks reach the deadline the velocity
does *not* equal the drill-saved value. -/
theorem drill_restore_counterexample :
    (update (manipulate ⟨1280, 720,
        { defaultStarState with x := 124, y := 360, vx := -0.5, vy := 0 }⟩
        "drill" {} 0) ⟨3, 0, 0, 0⟩).state.drill_end_time = 0 ∧
    (manipulate (⟨1280, 720,
        { defaultStarState with x := 124, y := 360, vx := -0.5, vy := 0 }⟩ : Screensaver)
        "drill" {} 0).state.drill_saved_vx = -0.5 ∧
    (update (manipulate ⟨1280, 720,
        { defaultStarState with x := 124, y := 360, vx := -0.5, vy := 0 }⟩
        "drill" {} 0) ⟨3, 0, 0, 0⟩).state.vx ≠
      (manipulate (⟨1280, 720,
        { defaultStarState with x := 124, y := 360, vx := -0.5, vy := 0 }⟩ : Screensaver)
        "drill" {} 0).state.drill_saved_vx := by
  refine ⟨?_, ?_, ?_⟩ <;>
  simp [update, preMoveState, effectsState, updateEffects, stepSpin, expireTrap,
        expireDrill, expireOpacity, expireColor, expireShrink, decayImpact, manipulate,
        cancelSpinOut, defaultStarState, updateEyes, bounceStep, default_rotation_speed,
        star_base_size] <;>
  norm_num

/-- The nearest-corner loop picks a corner of minimal squared distance
(equivalently, by monotonicity of the square root, minimal Euclidean
distance), and strict comparison against the running minimum breaks ties
in enumeration order: top-left, top-right, bottom-left, bottom-right. -/
theorem nearestCorner_spec (W H px py : ℚ) :
    (nearestCorner W H px py = (50, 50) ∧
      distSq px py 50 50 ≤ distSq px py (W - 50) 50 ∧
      distSq px py 50 50 ≤ distSq px py 50 (H - 50) ∧
      distSq px py 50 50 ≤ distSq px py (W - 50) (H - 50)) ∨
    (nearestCorner W H px py = (W - 50, 50) ∧
      distSq px py (W - 50) 50 < distSq px py 50 50 ∧
      distSq px py (W - 50) 50 ≤ distSq px py 50 (H - 50) ∧
      distSq px py (W - 50) 50 ≤ distSq px py (W - 50) (H - 50)) ∨
    (nearestCorner W H px py = (50, H - 50) ∧
      distSq px py 50 (H - 50) < distSq px py 50 50 ∧
      distSq px py 50 (H - 50) < distSq px py (W - 50) 50 ∧
      distSq px py 50 (H - 50) ≤ distSq px py (W - 50) (H - 50)) ∨
    (nearestCorner W H px py = (W - 50, H - 50) ∧
      distSq px py (W - 50) (H - 50) < distSq px py 50 50 ∧
      distSq px py (W - 50) (H - 50) < distSq px py (W - 50) 50 ∧
      distSq px py (W - 50) (H - 50) < distSq px py 50 (H - 50)) := by
  by_cases h1 : distSq px py (W - 50) 50 < distSq px py 50 50
  · by_cases h2 : distSq px py 50 (H - 50) < distSq px py (W - 50) 50
    · by_cases h3 : distSq px py (W - 50) (H - 50) < distSq px py 50 (H - 50)
      · refine Or.inr (Or.inr (Or.inr ⟨?_, ?_, ?_, ?_⟩))
        · simp [nearestCorner, cornersOf, nearestLoop, ltRunningMin, h1, h2, h3]
        · linarith
        · linarith
        · linarith
      · refine Or.inr (Or.inr (Or.inl ⟨?_, ?_, ?_, ?_⟩))
        · simp [nearestCorner, cornersOf, nearestLoop, ltRunningMin, h1, h2, h3]
        · linarith
        · linarith
        · linarith
    · by_cases h3 : distSq px py (W - 50) (H - 50) < distSq px py (W - 50) 50
      · refine Or.inr (Or.inr (Or.inr ⟨?_, ?_, ?_, ?_⟩))
        · simp [nearestCorner, cornersOf, nearestLoop, ltRunningMin, h1, h2, h3]
        · linarith
        · linarith
        · linarith
      · refine Or.inr (Or.inl ⟨?_, ?_, ?_, ?_⟩)
        · simp [nearestCorner, cornersOf, nearestLoop, ltRunningMin, h1, h2, h3]
        · linarith
        · linarith
        · linarith
  · by_cases h2 : distSq px py 50 (H - 50) < distSq px py 50 50
    · by_cases h3 : distSq px py (W - 50) (H - 50) < distSq px py 50 (H - 50)
      · refine Or.inr (Or.inr (Or.inr ⟨?_, ?_, ?_, ?_⟩))
        · simp [nearestCorner, cornersOf, nearestLoop, ltRunningMin, h1, h2, h3]
        · linarith
        · linarith
        · linarith
      · refine Or.inr (Or.inr (Or.inl ⟨?_, ?_, ?_, ?_⟩))
        · simp [nearestCorner, cornersOf, nearestLoop, ltRunningMin, h1, h2, h3]
        · linarith
        · linarith
        · linarith
    · by_cases h3 : distSq px py (W - 50) (H - 50) < distSq px py 50 50
      · refine Or.inr (Or.inr (Or.inr ⟨?_, ?_, ?_, ?_⟩))
        · simp [nearestCorner, cornersOf, nearestLoop, ltRunningMin, h1, h2, h3]
        · linarith
        · linarith
        · linarith
      · refine Or.inl ⟨?_, ?_, ?_, ?_⟩
        · simp [nearestCorner, cornersOf, nearestLoop, ltRunningMin, h1, h2, h3]
        · linarith
        · linarith
        · linarith

/-- While the post-effects state is corner-trapped, the tick writes the
jittered position. -/
theorem update_x_trapped (sv : Screensaver) (i : TickInput)
    (h : (preMoveState sv i).corner_trapped = true) :
    (update sv i).state.x =
      (effectsState sv i).trap_corner_x + (i.jx - 0.5) * 40 ∧
    (update sv i).state.y =
      (effectsState sv i).trap_corner_y + (i.jy - 0.5) * 40 := by
  rw [update_state_trapped h]
  constructor <;> simp

/-- C4 (amended): `manipulate("corner_trap")` stores the nearest of the
four 50px-inset corners (minimal Euclidean distance, ties broken in the
enumeration order top-left, top-right, bottom-left, bottom-right), saves
and zeroes the velocity, and stamps the start time; while trapped and
not yet expired, every tick places the position exactly at the trap
corner plus `(random - 0.5) * 40` per axis, hence within ±20 px of the
corner; and on the expiry tick (10 s) the trap-expiration step of
`_update_effects` restores the pre-trap velocity exactly and clears the
trap flag and tag.  As stated the claim is false for the velocity after
the full expiry tick: the position update of the same tick runs with the
restored velocity next to the corner (inset 50 px, less than the
subject's radius), so a negative component is immediately reflected —
see the counterexample. -/
theorem corner_trap_behavior :
    (∀ (sv : Screensaver) (ps : ManipParams) (now : ℚ),
      (manipulate sv "corner_trap" ps now).state.trap_corner_x =
        (nearestCorner sv.display_width sv.display_height sv.state.x sv.state.y).1 ∧
      (manipulate sv "corner_trap" ps now).state.trap_corner_y =
        (nearestCorner sv.display_width sv.display_height sv.state.x sv.state.y).2 ∧
      (manipulate sv "corner_trap" ps now).state.saved_vx = sv.state.vx ∧
      (manipulate sv "corner_trap" ps now).state.saved_vy = sv.state.vy ∧
      (manipulate sv "corner_trap" ps now).state.vx = 0 ∧
      (manipulate sv "corner_trap" ps now).state.vy = 0 ∧
      (manipulate sv "corner_trap" ps now).state.corner_trapped = true ∧
      (manipulate sv "corner_trap" ps now).state.effect_active = some "corner_trap" ∧
      (manipulate sv "corner_trap" ps now).state.effect_start_time = now) ∧
    (∀ W H px py : ℚ,
      (nearestCorner W H px py = (50, 50) ∧
        distSq px py 50 50 ≤ distSq px py (W - 50) 50 ∧
        distSq px py 50 50 ≤ distSq px py 50 (H - 50) ∧
        distSq px py 50 50 ≤ distSq px py (W - 50) (H - 50)) ∨
      (nearestCorner W H px py = (W - 50, 50) ∧
        distSq px py (W - 50) 50 < distSq px py 50 50 ∧
        distSq px py (W - 50) 50 ≤ distSq px py 50 (H - 50) ∧
        distSq px py (W - 50) 50 ≤ distSq px py (W - 50) (H - 50)) ∨
      (nearestCorner W H px py = (50, H - 50) ∧
        distSq px py 50 (H - 50) < distSq px py 50 50 ∧
        distSq px py 50 (H - 50) < distSq px py (W - 50) 50 ∧
        distSq px py 50 (H - 50) ≤ distSq px py (W - 50) (H - 50)) ∨
      (nearestCorner W H px py = (W - 50, H - 50) ∧
        distSq px py (W - 50) (H - 50) < distSq px py 50 50 ∧
        distSq px py (W - 50) (H - 50) < distSq px py (W - 50) 50 ∧
        distSq px py (W - 50) (H - 50) < distSq px py 50 (H - 50))) ∧
    (∀ (sv : Screensaver) (i : TickInput),
      sv.state.corner_trapped = true →
      i.now - sv.state.effect_start_time < 10 →
      0 ≤ i.jx → i.jx ≤ 1 → 0 ≤ i.jy → i.jy ≤ 1 →
      (update sv i).state.x = sv.state.trap_corner_x + (i.jx - 0.5) * 40 ∧
      (update sv i).state.y = sv.state.trap_corner_y + (i.jy - 0.5) * 40 ∧
      |(update sv i).state.x - sv.state.trap_corner_x| ≤ 20 ∧
      |(update sv i).state.y - sv.state.trap_corner_y| ≤ 20) ∧
    (∀ (s : StarState) (now : ℚ),
      s.corner_trapped = true → 10 ≤ now - s.effect_start_time →
      (updateEffects s now).corner_trapped = false ∧
      (updateEffects s now).vx = s.saved_vx ∧
      (updateEffects s now).vy = s.saved_vy ∧
      (s.effect_active = some "corner_trap" →
        (updateEffects s now).effect_active = none)) := by
  refine ⟨?_, ?_, ?_, ?_⟩
  · intro sv ps now
    refine ⟨?_, ?_, ?_, ?_, ?_, ?_, ?_, ?_, ?_⟩ <;> simp [manipulate]
  · exact nearestCorner_spec
  · intro sv i htr hlt hjx0 hjx1 hjy0 hjy1
    have hmid : (preMoveState sv i).corner_trapped = true := by
      simp [effectsState, updateEffects, htr, not_le.mpr hlt]
    obtain ⟨hx, hy⟩ := update_x_trapped sv i hmid
    have hcx : (effectsState sv i).trap_corner_x = sv.state.trap_corner_x := by
      simp [effectsState, updateEffects]
    have hcy : (effectsState sv i).trap_corner_y = sv.state.trap_corner_y := by
      simp [effectsState, updateEffects]
    rw [hcx] at hx
    rw [hcy] at hy
    refine ⟨hx, hy, ?_, ?_⟩
    · rw [hx]
      rw [abs_le]
      constructor <;> [linarith; linarith]
    · rw [hy]
      rw [abs_le]
      constructor <;> [linarith; linarith]
  · intro s now htr hge
    refine ⟨?_, ?_, ?_, ?_⟩
    · simp [updateEffects, htr, hge]
    · simp [updateEffects, htr, hge]
    · simp [updateEffects, htr, hge]
    · intro hea
      simp [updateEffects, htr, hge, hea]

/-- Witness for C4: a trapped tick with both jitter draws 1/2 puts the
position exactly at the trap corner. -/
theorem corner_trap_behavior_witness :
    (update (⟨1280, 720, { defaultStarState with corner_trapped := true, trap_corner_x := 50, trap_corner_y := 50 }⟩ : Screensaver)
        ⟨1, 0, 1/2, 1/2⟩).state.x =
      (⟨1280, 720, { defaultStarState with corner_trapped := true, trap_corner_x := 50, trap_corner_y := 50 }⟩ : Screensaver).state.trap_corner_x +
        ((⟨1, 0, 1/2, 1/2⟩ : TickInput).jx - 0.5) * 40 :=
  (corner_trap_behavior.2.2.1 _ ⟨1, 0, 1/2, 1/2⟩ rfl
    (by norm_num [defaultStarState]) (by norm_num) (by norm_num)
    (by norm_num) (by norm_num)).1

/-- C4 counterexample: trapped at the top-left corner with pre-trap
velocity `(-0.5, -0.5)`; the expiry tick restores it and the same tick's
wall reflection flips `vx` to `+0.5`, so the pre-trap velocity is not
restored exactly after the expiry tick. -/
theorem trap_restore_counterexample :
    (update (manipulate (⟨1280, 720, { defaultStarState with x := 100, y := 100, vx := -0.5, vy := -0.5 }⟩ : Screensaver) "corner_trap" {} 0)
        ⟨10, 0, 1/2, 1/2⟩).state.corner_trapped = false ∧
    (manipulate (⟨1280, 720, { defaultStarState with x := 100, y := 100, vx := -0.5, vy := -0.5 }⟩ : Screensaver) "corner_trap" {} 0).state.saved_vx = -0.5 ∧
    (update (manipulate (⟨1280, 720, { defaultStarState with x := 100, y := 100, vx := -0.5, vy := -0.5 }⟩ : Screensaver) "corner_trap" {} 0)
        ⟨10, 0, 1/2, 1/2⟩).state.vx ≠
      (manipulate (⟨1280, 720, { defaultStarState with x := 100, y := 100, vx := -0.5, vy := -0.5 }⟩ : Screensaver) "corner_trap" {} 0).state.saved_vx := by
  refine ⟨?_, ?_, ?_⟩ <;>
  simp [update, preMoveState, effectsState, updateEffects, stepSpin, expireTrap,
        expireDrill, expireOpacity, expireColor, expireShrink, decayImpact, manipulate,
        nearestCorner, nearestLoop, cornersOf, ltRunningMin, distSq,
        cancelSpinOut, defaultStarState, updateEyes, bounceStep, default_rotation_speed,
        star_base_size] <;>
  norm_num

/-- A tick in which a wall collision occurs: the free-bouncing position
update runs (neither corner-trapped nor drill-suspended after the
effects stage) and `_update_bouncing_position` hits a wall. -/
def collisionTick (sv : Screensaver) (i : TickInput) : Prop :=
  (preMoveState sv i).corner_trapped = false ∧
  (preMoveState sv i).drill_end_time = 0 ∧
  (bounceStep sv.display_width sv.display_height (preMoveState sv i)).2 = true

/-- No wall collision occurs in any tick of the run. -/
def noCollisionRun : Screensaver → List TickInput → Prop
  | _, [] => True
  | sv, i :: L => ¬collisionTick sv i ∧ noCollisionRun (update sv i) L

/-- Every tick first decays the wall impact by the factor 0.85. -/
theorem preMoveState_wall_impact_decay (sv : Screensaver) (i : TickInput) :
    (preMoveState sv i).wall_impact = sv.state.wall_impact * 0.85 := by
  simp [effectsState, updateEffects]

/-- A tick without a wall collision multiplies `wall_impact` by 0.85. -/
theorem update_wall_impact_of_noHit (sv : Screensaver) (i : TickInput)
    (hnc : ¬collisionTick sv i) :
    (update sv i).state.wall_impact = sv.state.wall_impact * 0.85 := by
  by_cases ht : (preMoveState sv i).corner_trapped = true
  · rw [update_state_trapped ht]
    simpa using preMoveState_wall_impact_decay sv i
  · have ht' : (preMoveState sv i).corner_trapped = false := by simpa using ht
    by_cases hd : (preMoveState sv i).drill_end_time = 0
    · have hhit : (bounceStep sv.display_width sv.display_height
          (preMoveState sv i)).2 = false := by
        by_contra hb
        exact hnc ⟨ht', hd, by simpa using hb⟩
      rw [update_state_bounce ht' hd]
      rw [updateEyes_wall_impact, bounceStep_wall_impact, hhit]
      simpa using preMoveState_wall_impact_decay sv i
    · rw [update_state_drill ht' hd]
      simpa using preMoveState_wall_impact_decay sv i

/-- C8: `wall_impact` is set to the fixed impulse 0.02 on any tick in
which a wall collision occurs; a tick without a collision multiplies it
by 0.85; and after `n` ticks with no new collision it equals the initial
value times `0.85 ^ n` exactly. -/
theorem wall_impact_dynamics :
    (∀ (sv : Screensaver) (i : TickInput), collisionTick sv i →
      (update sv i).state.wall_impact = 0.02) ∧
    (∀ (sv : Screensaver) (i : TickInput), ¬collisionTick sv i →
      (update sv i).state.wall_impact = sv.state.wall_impact * 0.85) ∧
    (∀ (sv : Screensaver) (L : List TickInput), noCollisionRun sv L →
      (runTicks sv L).state.wall_impact = sv.state.wall_impact * 0.85 ^ L.length) := by
  refine ⟨?_, update_wall_impact_of_noHit, ?_⟩
  · rintro sv i ⟨h1, h2, hhit⟩
    rw [update_state_bounce h1 h2]
    rw [updateEyes_wall_impact, bounceStep_wall_impact, hhit]
    rfl
  · intro sv L
    induction L generalizing sv with
    | nil =>
        intro _
        show sv.state.wall_impact = sv.state.wall_impact * 0.85 ^ ([] : List TickInput).length
        rw [List.length_nil, pow_zero, mul_one]
    | cons i L ih =>
        rintro ⟨hnc, hrest⟩
        calc (runTicks sv (i :: L)).state.wall_impact
            = (runTicks (update sv i) L).state.wall_impact := rfl
          _ = (update sv i).state.wall_impact * 0.85 ^ L.length := ih (update sv i) hrest
          _ = sv.state.wall_impact * 0.85 * 0.85 ^ L.length := by
              rw [update_wall_impact_of_noHit sv i hnc]
          _ = sv.state.wall_impact * 0.85 ^ (i :: L).length := by
              rw [List.length_cons, pow_succ]; ring

/-- Witness for C8: a corner-trapped tick (no bouncing, hence no
collision) decays the wall impact by 0.85. -/
theorem wall_impact_dynamics_witness :
    (update (⟨1280, 720, { defaultStarState with corner_trapped := true, trap_corner_x := 50, trap_corner_y := 50, wall_impact := 1 }⟩ : Screensaver) ⟨1, 0, 1/2, 1/2⟩).state.wall_impact =
      (⟨1280, 720, { defaultStarState with corner_trapped := true, trap_corner_x := 50, trap_corner_y := 50, wall_impact := 1 }⟩ : Screensaver).state.wall_impact * 0.85 :=
  wall_impact_dynamics.2.1 _ ⟨1, 0, 1/2, 1/2⟩ (by
    rintro ⟨h1, _, _⟩
    revert h1
    simp [preMoveState, effectsState, updateEffects, stepSpin, expireTrap, expireDrill,
          expireOpacity, expireColor, expireShrink, decayImpact, defaultStarState])

/-- A nonnegative drill deadline stays nonnegative through the effects
stage of a tick. -/
theorem preMoveState_drill_end_nonneg (sv : Screensaver) (i : TickInput)
    (h0 : 0 ≤ sv.state.drill_end_time) :
    0 ≤ (preMoveState sv i).drill_end_time := by
  rw [preMoveState_drill_end_time]
  rcases updateEffects_drill_end_cases
      { sv.state with heartbeat_pulse := i.hb } i.now with h | ⟨h, _⟩
  · simp only [effectsState]; rw [h]
  · simp only [effectsState]; rw [h]; exact h0

/-- C9: on every tick, exactly one of the three position regimes governs
the position update, decided on the post-effects state: corner-trapped
(position set to the trap corner plus jitter), drill-suspended
(`drill_end_time > 0`: position untouched), or free bouncing (position
and velocity advance through `_update_bouncing_position`).  The three
guards are exhaustive and mutually exclusive (the drill guard reads
`drill_end_time ≠ 0` in the source, which over the nonnegative deadlines
that occur in execution — see `reach_invariant` — is `> 0`). -/
theorem position_regimes :
    (∀ (sv : Screensaver) (i : TickInput), 0 ≤ sv.state.drill_end_time →
      (((preMoveState sv i).corner_trapped = true ∨
        ((preMoveState sv i).corner_trapped = false ∧
          0 < (preMoveState sv i).drill_end_time) ∨
        ((preMoveState sv i).corner_trapped = false ∧
          (preMoveState sv i).drill_end_time = 0)) ∧
      ¬((preMoveState sv i).corner_trapped = true ∧
          (preMoveState sv i).corner_trapped = false) ∧
      ¬(((preMoveState sv i).corner_trapped = false ∧
          0 < (preMoveState sv i).drill_end_time) ∧
        ((preMoveState sv i).corner_trapped = false ∧
          (preMoveState sv i).drill_end_time = 0)))) ∧
    (∀ (sv : Screensaver) (i : TickInput),
      (preMoveState sv i).corner_trapped = true →
      (update sv i).state.x =
        (preMoveState sv i).trap_corner_x + (i.jx - 0.5) * 40 ∧
      (update sv i).state.y =
        (preMoveState sv i).trap_corner_y + (i.jy - 0.5) * 40) ∧
    (∀ (sv : Screensaver) (i : TickInput),
      (preMoveState sv i).corner_trapped = false →
      0 < (preMoveState sv i).drill_end_time →
      (update sv i).state.x = sv.state.x ∧
      (update sv i).state.y = sv.state.y) ∧
    (∀ (sv : Screensaver) (i : TickInput),
      (preMoveState sv i).corner_trapped = false →
      (preMoveState sv i).drill_end_time = 0 →
      (update sv i).state.x =
        (bounceStep sv.display_width sv.display_height (preMoveState sv i)).1.x ∧
      (update sv i).state.y =
        (bounceStep sv.display_width sv.display_height (preMoveState sv i)).1.y ∧
      (update sv i).state.vx =
        (bounceStep sv.display_width sv.display_height (preMoveState sv i)).1.vx ∧
      (update sv i).state.vy =
        (bounceStep sv.display_width sv.display_height (preMoveState sv i)).1.vy) := by
  refine ⟨?_, ?_, ?_, ?_⟩
  · intro sv i h0
    have hmid := preMoveState_drill_end_nonneg sv i h0
    refine ⟨?_, ?_, ?_⟩
    · rcases Bool.eq_false_or_eq_true (preMoveState sv i).corner_trapped with htt | hf
      · exact Or.inl htt
      · rcases lt_or_eq_of_le hmid with hpos | hzero
        · exact Or.inr (Or.inl ⟨hf, hpos⟩)
        · exact Or.inr (Or.inr ⟨hf, hzero.symm⟩)
    · rintro ⟨h1, h2⟩
      rw [h1] at h2
      simp at h2
    · rintro ⟨⟨_, h1⟩, ⟨_, h2⟩⟩
      rw [h2] at h1
      exact lt_irrefl 0 h1
  · intro sv i htr
    rw [update_state_trapped htr]
    constructor <;> simp
  · intro sv i htr hd
    rw [update_state_drill htr (ne_of_gt hd)]
    constructor <;> simp [effectsState, updateEffects]
  · intro sv i htr hd
    rw [update_state_bounce htr hd]
    refine ⟨?_, ?_, ?_, ?_⟩ <;> simp

/-- Witness for C9: from the initial state the free-bouncing regime
governs the tick. -/
theorem position_regimes_witness :
    (update (initSaver 1280 720) ⟨0, 0, 0, 0⟩).state.x =
      (bounceStep 1280 720 (preMoveState (initSaver 1280 720) ⟨0, 0, 0, 0⟩)).1.x ∧
    (update (initSaver 1280 720) ⟨0, 0, 0, 0⟩).state.y =
      (bounceStep 1280 720 (preMoveState (initSaver 1280 720) ⟨0, 0, 0, 0⟩)).1.y ∧
    (update (initSaver 1280 720) ⟨0, 0, 0, 0⟩).state.vx =
      (bounceStep 1280 720 (preMoveState (initSaver 1280 720) ⟨0, 0, 0, 0⟩)).1.vx ∧
    (update (initSaver 1280 720) ⟨0, 0, 0, 0⟩).state.vy =
      (bounceStep 1280 720 (preMoveState (initSaver 1280 720) ⟨0, 0, 0, 0⟩)).1.vy :=
  position_regimes.2.2.2 (initSaver 1280 720) ⟨0, 0, 0, 0⟩
    (by simp [effectsState, updateEffects, initSaver, defaultStarState])
    (by simp [effectsState, updateEffects, initSaver, defaultStarState])


/-- C10: calling `manipulate("drill")` while a drill is already active
(`t1 < t0 + 3`) overwrites `drill_saved_{vx,vy}` with the current
velocity, which the first drill has already zeroed; the restarted drill
therefore carries saved velocity `(0, 0)`, and when it expires the
drill-expiration step restores `(vx, vy) = (0, 0)` — the subject stays
stationary instead of regaining its pre-drill velocity. -/
theorem drill_restart_overwrites_saved (sv : Screensaver) (ps ps2 : ManipParams)
    (t0 t1 now : ℚ) (ht1 : 0 ≤ t1) (hact : t1 < t0 + 3) (hexp : t1 + 3 ≤ now)
    (htr : sv.state.corner_trapped = false) :
    (manipulate (manipulate sv "drill" ps t0) "drill" ps2 t1).state.drill_saved_vx = 0 ∧
    (manipulate (manipulate sv "drill" ps t0) "drill" ps2 t1).state.drill_saved_vy = 0 ∧
    (manipulate (manipulate sv "drill" ps t0) "drill" ps2 t1).state.vx = 0 ∧
    (manipulate (manipulate sv "drill" ps t0) "drill" ps2 t1).state.vy = 0 ∧
    (manipulate (manipulate sv "drill" ps t0) "drill" ps2 t1).state.drill_end_time = t1 + 3 ∧
    (updateEffects (manipulate (manipulate sv "drill" ps t0) "drill" ps2 t1).state now).vx = 0 ∧
    (updateEffects (manipulate (manipulate sv "drill" ps t0) "drill" ps2 t1).state now).vy = 0 := by
  have hsaved_x :
      (manipulate (manipulate sv "drill" ps t0) "drill" ps2 t1).state.drill_saved_vx = 0 := by
    simp [manipulate]
  have hsaved_y :
      (manipulate (manipulate sv "drill" ps t0) "drill" ps2 t1).state.drill_saved_vy = 0 := by
    simp [manipulate]
  have hvx : (manipulate (manipulate sv "drill" ps t0) "drill" ps2 t1).state.vx = 0 := by
    simp [manipulate]
  have hvy : (manipulate (manipulate sv "drill" ps t0) "drill" ps2 t1).state.vy = 0 := by
    simp [manipulate]
  have hend :
      (manipulate (manipulate sv "drill" ps t0) "drill" ps2 t1).state.drill_end_time = t1 + 3 := by
    simp [manipulate]
  have htrap :
      (manipulate (manipulate sv "drill" ps t0) "drill" ps2 t1).state.corner_trapped = false := by
    simp [manipulate, htr]
  refine ⟨hsaved_x, hsaved_y, hvx, hvy, hend, ?_, ?_⟩
  · have hfire : 0 < (manipulate (manipulate sv "drill" ps t0) "drill" ps2 t1).state.drill_end_time ∧
        (manipulate (manipulate sv "drill" ps t0) "drill" ps2 t1).state.drill_end_time ≤ now := by
      rw [hend]; exact ⟨by linarith, hexp⟩
    rw [show (updateEffects (manipulate (manipulate sv "drill" ps t0) "drill" ps2 t1).state now).vx =
        (manipulate (manipulate sv "drill" ps t0) "drill" ps2 t1).state.drill_saved_vx from by
      simp [updateEffects, hfire.1, hfire.2, htrap]]
    exact hsaved_x
  · have hfire : 0 < (manipulate (manipulate sv "drill" ps t0) "drill" ps2 t1).state.drill_end_time ∧
        (manipulate (manipulate sv "drill" ps t0) "drill" ps2 t1).state.drill_end_time ≤ now := by
      rw [hend]; exact ⟨by linarith, hexp⟩
    rw [show (updateEffects (manipulate (manipulate sv "drill" ps t0) "drill" ps2 t1).state now).vy =
        (manipulate (manipulate sv "drill" ps t0) "drill" ps2 t1).state.drill_saved_vy from by
      simp [updateEffects, hfire.1, hfire.2, htrap]]
    exact hsaved_y

/-- Witness for C10: drill at time 0, drill again at time 1, expiry
checked at time 4. -/
theorem drill_restart_overwrites_saved_witness :
    (manipulate (manipulate (initSaver 1280 720) "drill" {} 0) "drill" {} 1).state.drill_saved_vx = 0 :=
  (drill_restart_overwrites_saved (initSaver 1280 720) {} {} 0 1 4
    (by norm_num) (by norm_num) (by norm_num) rfl).1
